import Mathlib

/-!
Verification development for the presentation-generation service
(`src/mcp/server.py`, `src/mcp/tools/{slides,llm,data}.py`,
`src/mcp_lab/orchestrator.py`).

The Python code is shallowly embedded: pure helpers become Lean functions,
stateful tool handlers become explicit state-passing functions, Python
exceptions become `Except` values, and the remote Google/DuckDB/LLM backends
become explicit oracle parameters (records of functions).  Python string
operations are modelled on `List Char` / `String`; the inputs of interest are
ASCII, matching the behaviour of `str.lower`, `\w`, `\s` on them.
-/

/-! ## Python string primitives -/

/-- Python `\s` character class (ASCII fragment, as used by `re` on the inputs
at hand): space, tab, newline, carriage return, vertical tab, form feed. -/
def pyIsSpace (c : Char) : Bool :=
  c = ' ' || c = '\t' || c = '\n' || c = '\r' || c = '\x0b' || c = '\x0c'

/-- Python `\w` character class (ASCII fragment): letters, digits, underscore. -/
def isWordC (c : Char) : Bool :=
  c.isAlphanum || c = '_'

/-- Python `str.strip()` on a character list. -/
def pyStripChars (cs : List Char) : List Char :=
  ((cs.dropWhile pyIsSpace).reverse.dropWhile pyIsSpace).reverse

/-- Python `str.strip()`. -/
def pyStrip (s : String) : String :=
  String.mk (pyStripChars s.data)

/-- Python `str.lower()` (ASCII). -/
def pyLower (s : String) : String :=
  String.mk (s.data.map Char.toLower)

/-- Python `str.rstrip(cs)`: remove the trailing characters that belong to the
given set. -/
def pyRstripSet (set : List Char) (s : String) : String :=
  String.mk ((s.data.reverse.dropWhile (fun c => set.contains c)).reverse)

/-- Python `str.strip(cs)`: remove leading and trailing characters that belong
to the given set. -/
def pyStripSet (set : List Char) (s : String) : String :=
  String.mk
    (((s.data.dropWhile (fun c => set.contains c)).reverse.dropWhile
      (fun c => set.contains c)).reverse)

/-- Does `pre` occur as a prefix of `l`? -/
def chrPrefix : List Char → List Char → Bool
  | [], _ => true
  | _ :: _, [] => false
  | p :: ps, c :: cs => p = c && chrPrefix ps cs

/-- Does `needle` occur as a contiguous substring of `hay`?
(Python `needle in hay`.) -/
def chrInfix (needle : List Char) : List Char → Bool
  | [] => chrPrefix needle []
  | c :: cs => chrPrefix needle (c :: cs) || chrInfix needle cs

/-- Python `needle in hay` on strings. -/
def pyInStr (needle hay : String) : Bool :=
  chrInfix needle.data hay.data

/-- Replace every (non-overlapping, leftmost-first) occurrence of `"```"` by
nothing, as in Python `s.replace("```", "")`. -/
def dropTripleBackticks : List Char → List Char
  | [] => []
  | '`' :: '`' :: '`' :: rest => dropTripleBackticks rest
  | c :: rest => c :: dropTripleBackticks rest

/-- Parse a nonempty digit string as a natural number (Python `int` on a
`\d+` match). -/
def digitsToNat (ds : List Char) : Nat :=
  ds.foldl (fun acc c => acc * 10 + (c.toNat - '0'.toNat)) 0

/-! ## Word-boundary keyword search

Models `re.search(r"\b(KW1|KW2|...)\b", s, re.I)` for alphabetic keywords:
a match is an occurrence of a keyword, compared case-insensitively, whose
neighbouring characters (if any) are not `\w` characters. -/

/-- Try to strip `kw` (already lowercase) case-insensitively off the front of
`cs`; return the remainder on success. -/
def kwPrefixCI : List Char → List Char → Option (List Char)
  | [], rest => some rest
  | _ :: _, [] => none
  | k :: ks, c :: cs => if c.toLower = k then kwPrefixCI ks cs else none

/-- The trailing `\b`: the next character (if any) is not a word character. -/
def wordBoundOk : List Char → Bool
  | [] => true
  | c :: _ => !isWordC c

/-- Keyword `kw` matches at the head of `cs` with a trailing word boundary. -/
def kwAt (kw : List Char) (cs : List Char) : Bool :=
  match kwPrefixCI kw cs with
  | some rest => wordBoundOk rest
  | none => false

/-- Scan `cs` for any of the keywords at a word boundary; `prevW` records
whether the previous character was a word character (the leading `\b`). -/
def scanKw (kws : List (List Char)) : Bool → List Char → Bool
  | _, [] => false
  | prevW, c :: cs =>
    (!prevW && kws.any (fun kw => kwAt kw (c :: cs))) || scanKw kws (isWordC c) cs

/-- The keywords of the `_SQL_GUARD` regex in `src/mcp/tools/data.py`
(`\b(INSERT|UPDATE|DELETE|DROP|ALTER|CREATE|REPLACE|MERGE)\b`, `re.I`). -/
def guardKws : List (List Char) :=
  [ ['i','n','s','e','r','t'], ['u','p','d','a','t','e'],
    ['d','e','l','e','t','e'], ['d','r','o','p'],
    ['a','l','t','e','r'], ['c','r','e','a','t','e'],
    ['r','e','p','l','a','c','e'], ['m','e','r','g','e'] ]

/-- `_SQL_GUARD.search(s)` is not `None`. -/
def sqlGuardMatches (s : String) : Bool :=
  scanKw guardKws false s.data

/-- `re.search(r"\blimit\b", s, re.I)` is not `None`
(used in `_nl2sql` to decide whether to append `LIMIT 5000`). -/
def hasLimitKw (s : String) : Bool :=
  scanKw [['l','i','m','i','t']] false s.data

/-! ## SQL comment stripping (`_sanitize_sql`, lines 182-187 of data.py) -/

/-- `re.sub(r"--.*?$", "", sql, flags=re.M)`: delete from each `--` to the end
of its line (the newline itself is kept).  The `Bool` flag records whether we
are currently inside a line comment. -/
def stripLineCommentsAux : Bool → List Char → List Char
  | _, [] => []
  | true, '\n' :: rest => '\n' :: stripLineCommentsAux false rest
  | true, _ :: rest => stripLineCommentsAux true rest
  | false, '-' :: '-' :: rest => stripLineCommentsAux true rest
  | false, c :: rest => c :: stripLineCommentsAux false rest

def stripLineComments (cs : List Char) : List Char :=
  stripLineCommentsAux false cs

/-- Does `"*/"` occur in the list? -/
def hasCloser : List Char → Bool
  | [] => false
  | '*' :: '/' :: _ => true
  | _ :: rest => hasCloser rest

/-- Drop everything up to and including the first `"*/"`. -/
def dropAfterCloser : List Char → List Char
  | [] => []
  | c :: rest =>
    if c = '*' ∧ rest.head? = some '/' then rest.tail
    else dropAfterCloser rest

theorem dropAfterCloser_length_le (l : List Char) :
    (dropAfterCloser l).length ≤ l.length := by
  induction l with
  | nil => simp [dropAfterCloser]
  | cons c rest ih =>
    simp only [dropAfterCloser]
    split
    · simp [List.length_tail]; omega
    · exact Nat.le_succ_of_le ih

/-- `re.sub(r"/\*.*?\*/", "", s, flags=re.S)`, with an explicit fuel bound
so that the recursion is structural: remove each (leftmost, non-greedy)
`/* ... */` block.  An opener with no closer anywhere after it is left in
place, as the regex then has no further match.  `dropAfterCloser` never
lengthens the list, so fuel `cs.length` (as supplied by `stripBlockComments`)
never runs out. -/
def stripBlockCommentsFuel : Nat → List Char → List Char
  | _, [] => []
  | 0, cs => cs
  | Nat.succ f, '/' :: '*' :: rest =>
    if hasCloser rest then stripBlockCommentsFuel f (dropAfterCloser rest)
    else '/' :: '*' :: rest
  | Nat.succ f, c :: rest => c :: stripBlockCommentsFuel f rest

def stripBlockComments (cs : List Char) : List Char :=
  stripBlockCommentsFuel cs.length cs

/-! ## data.py: NL→SQL pipeline -/

/-- One entry of the schema list `[{"name": c, "dtype": str(df[c].dtype)}]`. -/
structure Col where
  name : String
  dtype : String
deriving DecidableEq

/-- `any(k in dtype for k in ["int","float","double","decimal"])`. -/
def isNumDtype (d : String) : Bool :=
  ["int", "float", "double", "decimal"].any (fun k => pyInStr k d)

/-- The synonym table of `_find_best_column_match` (data.py lines 130-136). -/
def colMappings : List (String × List String) :=
  [ ("sales", ["total", "revenue", "amount", "sales"]),
    ("total", ["total", "amount", "revenue", "sales"]),
    ("revenue", ["total", "revenue", "amount", "sales"]),
    ("company", ["company", "customer", "client", "name"]),
    ("companies", ["company", "customer", "client", "name"]) ]

/-- `_find_best_column_match` (data.py lines 126-156): synonym map, then exact
case-insensitive match, then substring match either way, then first column,
then the literal `"id"`. -/
def _find_best_column_match (target : String) (col_names : List String) : String :=
  let tl := pyLower target
  let viaMap : Option String :=
    match colMappings.lookup tl with
    | none => none
    | some prefs =>
      (prefs.filterMap (fun pref =>
        col_names.find? (fun col => pyInStr (pyLower pref) (pyLower col)))).head?
  match viaMap with
  | some col => col
  | none =>
    match col_names.find? (fun col => pyLower col = tl) with
    | some col => col
    | none =>
      match col_names.find? (fun col =>
          pyInStr tl (pyLower col) || pyInStr (pyLower col) tl) with
      | some col => col
      | none => match col_names with | [] => "id" | c :: _ => c

/-- `_build_sum_query` (data.py lines 108-111). Note: no LIMIT clause. -/
def _build_sum_query (target_col : String) (col_names : List String) : String :=
  let target := _find_best_column_match target_col col_names
  "SELECT SUM(" ++ target ++ ") as total_" ++ target ++ " FROM t"

/-- `_build_group_by_query` (data.py lines 113-116). -/
def _build_group_by_query (measure_col group_col : String)
    (col_names : List String) : String :=
  let measure := _find_best_column_match measure_col col_names
  let group := _find_best_column_match group_col col_names
  "SELECT " ++ group ++ ", SUM(" ++ measure ++ ") as total_" ++ measure ++
    " FROM t GROUP BY " ++ group ++ " ORDER BY 2 DESC LIMIT 10"

/-- `_build_top_n_query` (data.py lines 118-120). -/
def _build_top_n_query (n : Nat) (col : String) (col_names : List String) : String :=
  let target := _find_best_column_match col col_names
  "SELECT * FROM t ORDER BY " ++ target ++ " DESC LIMIT " ++ toString (min n 100)

/-- `_build_avg_query` (data.py lines 122-124). Note: no LIMIT clause. -/
def _build_avg_query (target_col : String) (col_names : List String) : String :=
  let target := _find_best_column_match target_col col_names
  "SELECT AVG(" ++ target ++ ") as avg_" ++ target ++ " FROM t"

/-- `_fallback_query` (data.py lines 158-179). -/
def _fallback_query (columns : List Col) : String :=
  let cat := (columns.find? (fun c => !isNumDtype c.dtype)).map (fun c => c.name)
  let num := (columns.find? (fun c => isNumDtype c.dtype)).map (fun c => c.name)
  match cat, num with
  | some cn, some nn =>
    if cn ≠ "" ∧ nn ≠ "" then
      "SELECT " ++ cn ++ " AS category, SUM(" ++ nn ++
        ") AS value FROM t GROUP BY 1 ORDER BY 2 DESC LIMIT 10"
    else "SELECT * FROM t LIMIT 50"
  | _, _ => "SELECT * FROM t LIMIT 50"

/-! ### The four question patterns of `_nl2sql` (data.py lines 42-49)

Each `re.search` is modelled as a leftmost scan (`scanPat`) over the lowered
question, trying a full match (`...Here`) at every position.  The `\w`/`\s`
classes are disjoint and each literal is followed by a mandatory `\s+`, so
greedy maximal-munch parsing agrees with the backtracking regex engine. -/

/-- Try the whole pattern at one position; `prevW` says whether the previous
character was a word character (for the leading `\b`). -/
def scanPat {α : Type} (here : Bool → List Char → Option α) :
    Bool → List Char → Option α
  | _, [] => none
  | prevW, c :: cs =>
    match here prevW (c :: cs) with
    | some r => some r
    | none => scanPat here (isWordC c) cs

/-- `r'\b(\w+)\s+by\s+(\w+)'` at one position. -/
def groupByHere (prevW : Bool) (cs : List Char) : Option (String × String) :=
  if prevW then none else
  let w1 := cs.takeWhile isWordC
  let r1 := cs.dropWhile isWordC
  if w1.isEmpty then none else
  let s1 := r1.takeWhile pyIsSpace
  let r2 := r1.dropWhile pyIsSpace
  if s1.isEmpty then none else
  match r2 with
  | 'b' :: 'y' :: r3 =>
    let s2 := r3.takeWhile pyIsSpace
    let r4 := r3.dropWhile pyIsSpace
    if s2.isEmpty then none else
    let w2 := r4.takeWhile isWordC
    if w2.isEmpty then none else some (String.mk w1, String.mk w2)
  | _ => none

/-- `r'\btop\s+(\d+)\s+(\w+)'` at one position. -/
def topNHere (prevW : Bool) (cs : List Char) : Option (Nat × String) :=
  if prevW then none else
  match cs with
  | 't' :: 'o' :: 'p' :: r =>
    let s1 := r.takeWhile pyIsSpace
    let r1 := r.dropWhile pyIsSpace
    if s1.isEmpty then none else
    let d := r1.takeWhile Char.isDigit
    let r2 := r1.dropWhile Char.isDigit
    if d.isEmpty then none else
    let s2 := r2.takeWhile pyIsSpace
    let r3 := r2.dropWhile pyIsSpace
    if s2.isEmpty then none else
    let w := r3.takeWhile isWordC
    if w.isEmpty then none else some (digitsToNat d, String.mk w)
  | _ => none

/-- `r'\b(?:total|sum)\s+(\w+)'` at one position. -/
def sumHere (prevW : Bool) (cs : List Char) : Option String :=
  if prevW then none else
  let rTot : Option (List Char) :=
    match cs with
    | 't' :: 'o' :: 't' :: 'a' :: 'l' :: r => some r
    | 's' :: 'u' :: 'm' :: r => some r
    | _ => none
  match rTot with
  | none => none
  | some r =>
    let s1 := r.takeWhile pyIsSpace
    let r1 := r.dropWhile pyIsSpace
    if s1.isEmpty then none else
    let w := r1.takeWhile isWordC
    if w.isEmpty then none else some (String.mk w)

/-- `r'\baverage|avg\s+(\w+)'` at one position.  Alternation binds loosely:
alternative 1 is `\baverage` (capture group unset), alternative 2 is
`avg\s+(\w+)` with no word boundary.  `some none` = matched via alternative 1
(so `m.group(1)` is `None` and the builder raises `AttributeError`, which the
pattern loop catches and skips). -/
def avgHere (prevW : Bool) (cs : List Char) : Option (Option String) :=
  if !prevW && chrPrefix ['a','v','e','r','a','g','e'] cs then some none else
  match cs with
  | 'a' :: 'v' :: 'g' :: r =>
    let s1 := r.takeWhile pyIsSpace
    let r1 := r.dropWhile pyIsSpace
    if s1.isEmpty then none else
    let w := r1.takeWhile isWordC
    if w.isEmpty then none else some (some (String.mk w))
  | _ => none

/-- `_nl2sql` (data.py lines 36-105).  The Vertex LLM of the fallback branch
is an oracle: `llm = none` models both `_USE_LLM == False` and an exception
from `generate_content` (both paths return `_fallback_query`); `llm = some t`
models a successful call whose `resp.text` is `t`. -/
def _nl2sql (llm : Option String) (question : String) (columns : List Col) :
    String :=
  let col_names := columns.map (fun c => c.name)
  let ql := (pyLower (pyStrip question)).data
  match scanPat groupByHere false ql with
  | some (g1, g2) => _build_group_by_query g1 g2 col_names
  | none =>
  match scanPat topNHere false ql with
  | some (n, col) => _build_top_n_query n col col_names
  | none =>
  match scanPat sumHere false ql with
  | some t => _build_sum_query t col_names
  | none =>
  match scanPat avgHere false ql with
  | some (some t) => _build_avg_query t col_names
  | _ =>
    match llm with
    | none => _fallback_query columns
    | some txt =>
      let t1 := pyStrip txt
      let t2 := pyStripSet ['`', 's', 'q', 'l'] t1
      let t3 := pyStripSet ['`'] t2
      let t4 := String.mk (dropTripleBackticks t3.data)
      let sql := pyStrip t4
      if hasLimitKw sql then sql
      else pyRstripSet [';'] sql ++ " LIMIT 5000"

/-- Comment stripping as performed by `_sanitize_sql`: line comments first,
then block comments. -/
def sqlStripComments (sql : String) : String :=
  String.mk (stripBlockComments (stripLineComments sql.data))

/-- `_sanitize_sql` (data.py lines 182-187): strip comments, then reject any
statement on which the keyword guard fires (`ValueError`); the comment-stripped
statement is what the caller goes on to execute. -/
def _sanitize_sql (sql : String) : Except String String :=
  let s := sqlStripComments sql
  if sqlGuardMatches s then Except.error "Only SELECT/WITH queries are allowed."
  else Except.ok s

/-- `DataFrame.head(n)`: first `n` rows for `n ≥ 0`, all but the last `|n|`
rows for negative `n`. -/
def pdHead (n : Int) (rows : List (List String)) : List (List String) :=
  if 0 ≤ n then rows.take n.toNat
  else rows.take (rows.length - n.natAbs)

/-- Oracles for `data_query_tool`: the parquet load (schema on success), the
LLM SQL text, whether `EXPLAIN <sql>` succeeds, and the DuckDB row results. -/
structure DataEnv where
  llm_sql : Option String
  load : Except String (List Col)
  explain_ok : String → Bool
  run_sql : String → Except String (List (List String))

/-- The request parameters of `data.query` that the handler reads. -/
structure DataParams where
  dataset_id : Option String
  question : Option String
  sheet : Option String
  limit_rows : Option Int

/-- The observable outcome of one `data.query` call: the statements passed to
`con.execute` in order (the `EXPLAIN` probe and the final query), the `sql`
field of the returned payload, the truncated row set, and whether the
degraded catch-all result of lines 448-457 was returned. -/
structure DataOutcome where
  executed : List String
  result_sql : String
  result_rows : Option (List (List String))
  degraded : Bool
deriving DecidableEq

/-- `int(params.get("limit_rows") or 100_000)`: the effective row limit
(`None` and `0` are falsy). -/
def effLimitRows (p : DataParams) : Int :=
  match p.limit_rows with
  | none => 100000
  | some n => if n = 0 then 100000 else n

/-- `x or default` for an optional Python string (both `None` and `""` are
falsy). -/
def pyOrStrOpt (o : Option String) (d : String) : String :=
  match o with
  | some s => if s = "" then d else s
  | none => d

/-- `data_query_tool` (data.py lines 347-457).  The `ValueError` for missing
`dataset_id`/`question` is raised before the `try` block and escapes the tool
(`Except.error`); every later failure is caught by the outer handler, which
returns the degraded payload with `sql = "-- Failed: <question>"`.  Chart
rendering, markdown table and insight generation do not affect the executed
SQL or the row set and are elided. -/
def data_query_tool (env : DataEnv) (p : DataParams) :
    Except String DataOutcome :=
  let dataset_id := pyOrStrOpt p.dataset_id ""
  let question := pyOrStrOpt p.question ""
  let limit_rows : Int := effLimitRows p
  if dataset_id = "" ∨ question = "" then
    Except.error "dataset_id and question are required"
  else
    Except.ok (match env.load with
    | Except.error _ =>
      { executed := [], result_sql := "-- Failed: " ++ question,
        result_rows := none, degraded := true }
    | Except.ok cols =>
      let sql0 := _nl2sql env.llm_sql question cols
      match _sanitize_sql sql0 with
      | Except.error _ =>
        { executed := [], result_sql := "-- Failed: " ++ question,
          result_rows := none, degraded := true }
      | Except.ok sql1 =>
        let explainStr := "EXPLAIN " ++ sql1
        let sql2 := if env.explain_ok sql1 then sql1
                    else "SELECT * FROM t LIMIT " ++ toString (min 50 limit_rows)
        match env.run_sql sql2 with
        | Except.error _ =>
          { executed := [explainStr, sql2],
            result_sql := "-- Failed: " ++ question,
            result_rows := none, degraded := true }
        | Except.ok rows =>
          let out := if (rows.length : Int) > limit_rows
                     then pdHead limit_rows rows else rows
          { executed := [explainStr, sql2], result_sql := sql2,
            result_rows := some out, degraded := false })

/-- The statements a `data.query` call passed to `con.execute`. -/
def executedOf (r : Except String DataOutcome) : List String :=
  match r with
  | Except.error _ => []
  | Except.ok o => o.executed

/-! ## JSON values

Parsed JSON as handled by `json.loads` / dict access in the Python code.
Numbers are modelled as integers (no claim involves fractional literals). -/

inductive Json where
  | null
  | bool (b : Bool)
  | num (n : Int)
  | str (s : String)
  | arr (items : List Json)
  | obj (fields : List (String × Json))
deriving Inhabited

/-- Python truthiness of a parsed JSON value (`None`, `False`, `0`, `""`,
`[]`, `{}` are falsy). -/
def jTruthy : Json → Bool
  | Json.null => false
  | Json.bool b => b
  | Json.num n => n ≠ 0
  | Json.str s => s ≠ ""
  | Json.arr items => !items.isEmpty
  | Json.obj fields => !fields.isEmpty

/-- `d.get(k)` on an object's field list (`None`, i.e. `Json.null`, when the
key is absent). -/
def jGet (fields : List (String × Json)) (k : String) : Json :=
  match fields.lookup k with
  | some v => v
  | none => Json.null

/-- Python `a or b` on JSON values. -/
def jPyOr (a b : Json) : Json :=
  if jTruthy a then a else b

/-- Is the value a JSON object? -/
def jIsObj : Json → Bool
  | Json.obj _ => true
  | _ => false

/-! ## llm.py: `_coerce_to_object` (lines 27-39)

`isinstance(data, dict)` returns the dict unchanged;
`isinstance(data, list) and data and isinstance(data[0], dict)` unwraps the
FIRST element of any non-empty list whose head is a dict (there is no check
that the list has exactly one element); everything else raises. -/

def _coerce_to_object : Json → Except String Json
  | Json.obj fields => Except.ok (Json.obj fields)
  | Json.arr (x :: _) =>
    match x with
    | Json.obj fields => Except.ok (Json.obj fields)
    | _ => Except.error "Expected a JSON object"
  | _ => Except.error "Expected a JSON object"

/-! ## server.py: JSON-RPC dispatcher -/

/-- `_error` (server.py lines 39-40). -/
def rpcError (id0 : Json) (code : Int) (message : String) : Json :=
  Json.obj [("jsonrpc", Json.str "2.0"), ("id", id0),
    ("error", Json.obj [("code", Json.num code), ("message", Json.str message)])]

/-- `_success` (server.py lines 43-44). -/
def rpcSuccess (id0 : Json) (result : Json) : Json :=
  Json.obj [("jsonrpc", Json.str "2.0"), ("id", id0), ("result", result)]

/-- A registered tool: params JSON in, result JSON out; `Except.error` models
the handler raising (any `Exception`), carrying the formatted message. -/
def ToolFn : Type := Json → Except String Json

/-- `_handle_request` (server.py lines 47-62) over a registry `tools`.
`req.get("id")` / `req.get("method")` default to `None`.  The guard
`if not method or method not in TOOLS` evaluates left to right: a falsy
`method` (`None`, `""`, `0`, `False`, `[]`, `{}`) short-circuits to the
`-32601` envelope; for a truthy `method` the membership test runs, and a
non-empty list or dict is unhashable there, so `method not in TOOLS` raises
`TypeError` — which nothing in `_handle_request` catches (its `try` covers
only the tool call), modelled as `Except.error`.  A truthy hashable method
that is not a registered string yields `-32601`; `params = req.get("params",
{}) or {}`; a raising tool becomes a `-32000` error envelope. -/
def _handle_request (tools : List (String × ToolFn))
    (req : List (String × Json)) : Except String Json :=
  let id0 := jGet req "id"
  let method := jGet req "method"
  if !jTruthy method then
    Except.ok (rpcError id0 (-32601) "Method not found")
  else
    match method with
    | Json.arr _ => Except.error "TypeError: unhashable type"
    | Json.obj _ => Except.error "TypeError: unhashable type"
    | Json.str m =>
      match tools.lookup m with
      | none => Except.ok (rpcError id0 (-32601) "Method not found")
      | some f =>
        let params := jPyOr (jGet req "params") (Json.obj [])
        match f params with
        | Except.ok result => Except.ok (rpcSuccess id0 result)
        | Except.error msg => Except.ok (rpcError id0 (-32000) msg)
    | _ => Except.ok (rpcError id0 (-32601) "Method not found")

/-- One line read from stdin, after `line.strip()`: blank (skipped), invalid
JSON (a `json.JSONDecodeError` from `json.loads`), or a parsed JSON value. -/
inductive InLine where
  | blank
  | malformed (raw : String)
  | parsed (v : Json)

/-- `serve_stdio` (server.py lines 65-110) over a finite input: the emitted
response lines in order, paired with the exit code.  Two crash modes escape
the per-line handler (which catches only `json.JSONDecodeError`) and reach
the outer `except Exception`, which logs and returns 1 with no response for
that line and no later line processed: a parsed value that is not a dict
makes `req.get("id")` raise `AttributeError`, and a raising
`_handle_request` (the `TypeError` from an unhashable `method`) propagates
out of the `resp = _handle_request(req)` call at line 98. -/
def serve_stdio (tools : List (String × ToolFn)) :
    List InLine → List Json × Nat
  | [] => ([], 0)
  | InLine.blank :: rest => serve_stdio tools rest
  | InLine.malformed _ :: rest =>
    let out := serve_stdio tools rest
    (rpcError Json.null (-32700) "Invalid JSON" :: out.1, out.2)
  | InLine.parsed (Json.obj fields) :: rest =>
    match _handle_request tools fields with
    | Except.ok resp =>
      let out := serve_stdio tools rest
      (resp :: out.1, out.2)
    | Except.error _ => ([], 1)
  | InLine.parsed _ :: _ => ([], 1)

/-- The envelope of a non-raising `_handle_request` call (observation
helper; the `Json.null` placeholder of the raising case is never produced
for a string `method`, by `handle_request_str_ok`). -/
def handleResp (tools : List (String × ToolFn))
    (req : List (String × Json)) : Json :=
  match _handle_request tools req with
  | Except.ok resp => resp
  | Except.error _ => Json.null

/-- The `id` field of an emitted response object. -/
def respId (resp : Json) : Json :=
  match resp with
  | Json.obj fields => jGet fields "id"
  | _ => Json.null

/-- Does the response object carry the given top-level key? -/
def respHas (resp : Json) (k : String) : Bool :=
  match resp with
  | Json.obj fields => (fields.lookup k).isSome
  | _ => false

/-- The `error.code` of a response, if it is an error envelope. -/
def respErrCode (resp : Json) : Option Int :=
  match resp with
  | Json.obj fields =>
    match fields.lookup "error" with
    | some (Json.obj efields) =>
      match efields.lookup "code" with
      | some (Json.num c) => some c
      | _ => none
    | _ => none
  | _ => none

/-! ## slides.py: deck renderer tool

The Google Slides / Drive backends are an oracle record `GBackend`; each
operation takes and returns a `BackendState`, so side effects persist even
when the operation raises (as in Python).  The idempotency store
(`src.common.idempotency.load_cache` / `save_cache`, a JSON-file-backed dict
not present under `src/`) is modelled as the in-memory map `SlidesState.idem`.
`SlidesCreateParams` mirrors the pydantic schema; `src/mcp/schemas.py` is not
present under `src/`, so the field list is modelled from the spec (§4.8
input: client_request_id?, title, subtitle?, bullets, script, one-of image
source, share_image_public, aspect, presentation_id?) together with the field
accesses in slides.py. -/

inductive PyErr where
  | http (status : Nat) (msg : String)
  | value (msg : String)
  | other (msg : String)
deriving DecidableEq

/-- Observable backend effects: a counter for fresh presentation ids, the
presentations created, the (presentation, slide) insertions, and the image
uploads, in order. -/
structure BackendState where
  presCount : Nat
  presentations : List String
  slides : List (String × String)
  uploads : List String
deriving DecidableEq

/-- The shapes `_normalize_create_presentation_ret` accepts from
`create_presentation`. -/
inductive CreateRet where
  | tupleLike (items : List String)
  | dictLike (fields : List (String × String))
  | strId (s : String)
deriving DecidableEq

structure GBackend where
  create_presentation :
    String → BackendState → Except PyErr CreateRet × BackendState
  delete_default_slide :
    String → BackendState → Except PyErr String × BackendState
  upload_image_to_drive :
    String → Bool → BackendState →
      Except PyErr (String × Option String) × BackendState
  create_main_slide_with_content :
    String → String → Option String → List String → Option String → String →
      BackendState → Except PyErr String × BackendState
  drive_download_url : String → Except PyErr String

/-- The process-wide state the tool touches: backend effects plus the
persisted idempotency map `client_request_id ↦ (presentation_id, slide_id,
url)`. -/
structure SlidesState where
  backend : BackendState
  idem : List (String × (String × String × String))
deriving DecidableEq

/-- `_retryable_http` (slides.py lines 26-30). -/
def _retryable_http : PyErr → Bool
  | PyErr.http status _ =>
    status = 429 || status = 500 || status = 502 || status = 503 || status = 504
  | _ => false

/-- `_backoff` (slides.py lines 32-41) with the remaining attempt budget made
explicit (the source calls it with `attempts = 4`).  Each retry re-invokes the
operation on the state the failed attempt left behind. -/
def _backoff {α : Type}
    (fn : BackendState → Except PyErr α × BackendState) :
    Nat → BackendState → Except PyErr α × BackendState
  | 0, st => fn st
  | Nat.succ n, st =>
    match fn st with
    | (Except.ok a, st1) => (Except.ok a, st1)
    | (Except.error e, st1) =>
      if n = 0 || !_retryable_http e then (Except.error e, st1)
      else _backoff fn n st1

/-- First truthy value of a Python `a or b or ...` chain over optional
strings (`None` and `""` are falsy). -/
def firstTruthyS : List (Option String) → Option String
  | [] => none
  | some s :: rest => if s = "" then firstTruthyS rest else some s
  | none :: rest => firstTruthyS rest

/-- The URL synthesized for a bare presentation id. -/
def presUrlOf (pres_id : String) : String :=
  "https://docs.google.com/presentation/d/" ++ pres_id ++ "/edit"

/-- `_normalize_create_presentation_ret` (slides.py lines 45-76). -/
def _normalize_create_presentation_ret :
    CreateRet → Except PyErr (String × String)
  | CreateRet.tupleLike items =>
    match items with
    | [a, b] => Except.ok (a, b)
    | a :: _ :: _ :: _ =>
      Except.ok (a, items.getLastD "")
    | _ =>
      Except.error
        (PyErr.value "create_presentation returned tuple/list with insufficient values")
  | CreateRet.dictLike fields =>
    let pres_id := firstTruthyS
      [fields.lookup "presentation_id", fields.lookup "presentationId",
       fields.lookup "id"]
    let url := firstTruthyS
      [fields.lookup "url", fields.lookup "presentation_url",
       fields.lookup "presentationUrl", fields.lookup "link"]
    match pres_id, url with
    | some p, some u => Except.ok (p, u)
    | some p, none => Except.ok (p, presUrlOf p)
    | none, _ =>
      Except.error
        (PyErr.value "create_presentation returned dict without usable id/url")
  | CreateRet.strId s => Except.ok (s, presUrlOf s)

structure SlidesCreateParams where
  client_request_id : Option String
  title : String
  subtitle : Option String
  bullets : Option (List String)
  script : Option String
  image_local_path : Option String
  image_url : Option String
  image_drive_file_id : Option String
  share_image_public : Bool
  aspect : String
  presentation_id : Option String
deriving DecidableEq

structure SlidesCreateResult where
  presentation_id : String
  slide_id : String
  url : String
  reused_existing : Bool
deriving DecidableEq

/-- Truthiness of an optional string field. -/
def truthyS : Option String → Bool
  | some s => !s.isEmpty
  | none => false

inductive ImgMode where
  | noneMode
  | localPath (v : String)
  | urlMode (v : String)
  | driveFile (v : String)
deriving DecidableEq

/-- `_choose_image` (slides.py lines 80-94). -/
def _choose_image (p : SlidesCreateParams) : Except PyErr ImgMode :=
  let srcs := [p.image_local_path, p.image_url, p.image_drive_file_id]
  let count := srcs.countP truthyS
  if count = 0 then Except.ok ImgMode.noneMode
  else if count > 1 then
    Except.error (PyErr.value
      "Provide exactly one of image_local_path, image_url, image_drive_file_id.")
  else if truthyS p.image_drive_file_id then
    Except.ok (ImgMode.driveFile (p.image_drive_file_id.getD ""))
  else if truthyS p.image_url then Except.ok (ImgMode.urlMode (p.image_url.getD ""))
  else Except.ok (ImgMode.localPath (p.image_local_path.getD ""))

/-- `_clamp_title` (slides.py lines 96-98): `title` or `title: subtitle`,
truncated to 120 characters. -/
def _clamp_title (title : String) (subtitle : Option String) : String :=
  let composed := match subtitle with
    | none => title
    | some st => if st = "" then title else title ++ ": " ++ st
  String.mk (composed.data.take 120)

/-- Step 4 of `slides_create_tool` (lines 142-164): resolve the chosen image
source to a URL.  `_drive_public_download_url` is imported from
`src/agent/slides_google.py` but has no definition there; it is modelled as
the abstract `drive_download_url` oracle.  In `urlMode` its exceptions are
swallowed (`_normalize_maybe_drive` returns the input unchanged); in
`driveFile` mode they propagate. -/
def resolveImage (b : GBackend) (mode : ImgMode) (share : Bool)
    (bs : BackendState) : Except PyErr (Option String) × BackendState :=
  match mode with
  | ImgMode.noneMode => (Except.ok none, bs)
  | ImgMode.localPath v =>
    match _backoff (b.upload_image_to_drive v share) 4 bs with
    | (Except.error e, bs1) => (Except.error e, bs1)
    | (Except.ok (file_id, public_url), bs1) =>
      let dflt := "https://drive.google.com/uc?export=download&id=" ++ file_id
      let u := match public_url with
        | some pu => if pu = "" then dflt else pu
        | none => dflt
      (Except.ok (some u), bs1)
  | ImgMode.urlMode v =>
    let u := match b.drive_download_url v with
      | Except.ok d => d
      | Except.error _ => v
    (Except.ok (some u), bs)
  | ImgMode.driveFile v =>
    match b.drive_download_url v with
    | Except.ok d => (Except.ok (some d), bs)
    | Except.error e => (Except.error e, bs)

/-- Swallow `HttpError` only (the `except HttpError` of lines 137-140). -/
def swallowHttp {α : Type} (r : Except PyErr α) : Except PyErr Unit :=
  match r with
  | Except.ok _ => Except.ok ()
  | Except.error (PyErr.http _ _) => Except.ok ()
  | Except.error e => Except.error e

/-- `slides_create_tool` (slides.py lines 102-214).  Control flow:
idempotency lookup (return the cached triple with `reused_existing = true`);
otherwise create a NEW presentation (note: `p.presentation_id` is never
read), best-effort delete of the auto-created first slide, image resolution,
slide construction, and only then the idempotency-cache write.  The result of
a non-cached call carries `reused_existing = false` (the pydantic default;
the final `SlidesCreateResult(...)` call does not set the flag). -/
def slides_create_tool (b : GBackend) (p : SlidesCreateParams)
    (st : SlidesState) : Except PyErr SlidesCreateResult × SlidesState :=
  match (match p.client_request_id with
         | some key => if key = "" then none else st.idem.lookup key
         | none => none) with
  | some (pres_id, slide_id, url) =>
    (Except.ok { presentation_id := pres_id, slide_id := slide_id, url := url,
                 reused_existing := true }, st)
  | none =>
    let pres_title := _clamp_title p.title p.subtitle
    match _backoff (b.create_presentation pres_title) 4 st.backend with
    | (Except.error e, bs) => (Except.error e, { st with backend := bs })
    | (Except.ok ret, bs1) =>
      match _normalize_create_presentation_ret ret with
      | Except.error e => (Except.error e, { st with backend := bs1 })
      | Except.ok (pres_id, url) =>
        let delRes := _backoff (b.delete_default_slide pres_id) 4 bs1
        match swallowHttp delRes.1 with
        | Except.error e => (Except.error e, { st with backend := delRes.2 })
        | Except.ok _ =>
          let bs2 := delRes.2
          match _choose_image p with
          | Except.error e => (Except.error e, { st with backend := bs2 })
          | Except.ok mode =>
            match resolveImage b mode p.share_image_public bs2 with
            | (Except.error e, bs3) => (Except.error e, { st with backend := bs3 })
            | (Except.ok image_url, bs3) =>
              let bullets := p.bullets.getD []
              let script_text := p.script.getD ""
              match _backoff
                  (b.create_main_slide_with_content pres_id p.title p.subtitle
                    bullets image_url script_text) 4 bs3 with
              | (Except.error e, bs4) => (Except.error e, { st with backend := bs4 })
              | (Except.ok slide_id, bs4) =>
                let idem1 :=
                  match p.client_request_id with
                  | some key =>
                    if key = "" then st.idem
                    else (key, (pres_id, slide_id, url)) :: st.idem
                  | none => st.idem
                (Except.ok { presentation_id := pres_id, slide_id := slide_id,
                             url := url, reused_existing := false },
                 { backend := bs4, idem := idem1 })

/-- A deterministic mock backend (fresh ids from counters, every operation
succeeds), used to evaluate the tool at concrete inputs. -/
def mockBackend : GBackend where
  create_presentation := fun _ st =>
    let pid := "p" ++ toString st.presCount
    (Except.ok (CreateRet.tupleLike [pid, presUrlOf pid]),
     { st with presCount := st.presCount + 1,
               presentations := st.presentations ++ [pid] })
  delete_default_slide := fun _ st => (Except.ok "default", st)
  upload_image_to_drive := fun path _ st =>
    (Except.ok ("f_" ++ path, some ("https://drive.example/" ++ path)),
     { st with uploads := st.uploads ++ [path] })
  create_main_slide_with_content := fun pres _ _ _ _ _ st =>
    let sid := "s" ++ toString st.slides.length
    (Except.ok sid, { st with slides := st.slides ++ [(pres, sid)] })
  drive_download_url := fun u => Except.ok u

def emptyBackendState : BackendState :=
  { presCount := 0, presentations := [], slides := [], uploads := [] }

def emptySlidesState : SlidesState :=
  { backend := emptyBackendState, idem := [] }

/-! ## orchestrator.py: `orchestrate`

Step 1 (`llm.summarize` with its cache, lines 36-74) always yields one parsed
summarizer payload `s`; the embedding takes that payload as a parameter and
models everything from the normalization at line 77 on.  The per-call tool
transport (`MCPClient.call`) becomes two oracles: `imageGen` (whose
`Except.error` is the `ToolError` the orchestrator catches) and
`slidesCreate` (whose `Except.error` propagates out of `orchestrate`).  Both
tools return JSON objects, given here as field lists.  `imagen_key` lives in
`src/common/cache.py`, which is not under `src/`; it is modelled as the
abstract key function `ikey`.  The imagen result cache is threaded as an
explicit association list (TTL expiry is folded into the initial cache
contents). -/

/-- The `slide_params` dict passed to `slides.create` (orchestrator.py lines
170-187), with the optional keys that are only added when truthy. -/
structure SlideCall where
  client_request_id : String
  title : Json
  subtitle : Json
  bullets : Json
  script : Json
  share_image_public : Bool
  aspect : String
  image_url : Option Json
  image_drive_file_id : Option Json
  image_local_path : Option Json
  presentation_id : Option Json

structure OrchEnv where
  imageGen : String → Json → Except String (List (String × Json))
  slidesCreate : String → SlideCall → Except String (List (String × Json))
  ikey : Json → String

/-- Normalization to `sections[]` (orchestrator.py lines 77-85). -/
def sectionsOf (s : List (String × Json)) : List Json :=
  match s.lookup "sections" with
  | some (Json.arr xs) => xs
  | _ => [Json.obj [
      ("title", jPyOr (jGet s "title") (Json.str "Untitled")),
      ("subtitle", jGet s "subtitle"),
      ("bullets", jPyOr (jGet s "bullets") (Json.arr [])),
      ("script", jPyOr (jGet s "script") (Json.str "")),
      ("image_prompt", jGet s "image_prompt")]]

/-- The three image fields the loop body tracks (`image_url`,
`image_drive_file_id`, `image_local_path`), all initialized to `None`. -/
structure ImgFields where
  image_url : Json
  drive : Json
  localPath : Json

def noImgFields : ImgFields :=
  { image_url := Json.null, drive := Json.null, localPath := Json.null }

/-- The `image.generate` request params (orchestrator.py lines 126-136). -/
def imagenParams (image_prompt : Json) (imagen_size : String) : Json :=
  Json.obj [("prompt", image_prompt), ("aspect", Json.str "16:9"),
    ("size", Json.str imagen_size), ("safety_tier", Json.str "default"),
    ("share_public", Json.bool true)]

/-- Step 2a of the loop (orchestrator.py lines 118-167): best-effort image
generation with optional caching; a `ToolError` is swallowed, leaving all
three fields `None`. -/
def imagePhase (env : OrchEnv) (useCache : Bool) (per_slide_id : String)
    (image_prompt : Json) (icache : List (String × Json))
    (imagen_size : String) : ImgFields × List (String × Json) :=
  if !jTruthy image_prompt then (noImgFields, icache)
  else if useCache then
    let key := env.ikey image_prompt
    let icached := jGet icache key
    let cachedFields := match icached with | Json.obj fs => fs | _ => []
    if jTruthy icached &&
        (jTruthy (jGet cachedFields "image_url") ||
         jTruthy (jGet cachedFields "drive_file_id")) then
      ({ image_url := jGet cachedFields "image_url",
         drive := jGet cachedFields "drive_file_id",
         localPath := Json.null }, icache)
    else
      match env.imageGen per_slide_id (imagenParams image_prompt imagen_size) with
      | Except.ok g =>
        let iu := jPyOr (jGet g "image_url") (jGet g "url")
        let dr := jGet g "drive_file_id"
        let lp := jGet g "local_path"
        ({ image_url := iu, drive := dr, localPath := lp },
         (key, Json.obj [("image_url", iu), ("drive_file_id", dr)]) :: icache)
      | Except.error _ => (noImgFields, icache)
  else
    match env.imageGen per_slide_id (imagenParams image_prompt imagen_size) with
    | Except.ok g =>
      ({ image_url := jPyOr (jGet g "image_url") (jGet g "url"),
         drive := jGet g "drive_file_id",
         localPath := jGet g "local_path" }, icache)
    | Except.error _ => (noImgFields, icache)

/-- Step 2b: assemble `slide_params` (orchestrator.py lines 170-187); the
`if/elif` chain adds at most one image key, and `presentation_id` is added
only once `created_pres_id` is truthy (i.e. from the second slide on). -/
def buildSlideCall (per_slide_id : String) (sec : List (String × Json))
    (f : ImgFields) (createdPres : Json) : SlideCall :=
  { client_request_id := per_slide_id,
    title := jPyOr (jGet sec "title") (Json.str "Untitled"),
    subtitle := jGet sec "subtitle",
    bullets := jPyOr (jGet sec "bullets") (Json.arr []),
    script := jPyOr (jGet sec "script") (Json.str ""),
    share_image_public := true,
    aspect := "16:9",
    image_url := if jTruthy f.image_url then some f.image_url else none,
    image_drive_file_id :=
      if !jTruthy f.image_url && jTruthy f.drive then some f.drive else none,
    image_local_path :=
      if !jTruthy f.image_url && !jTruthy f.drive && jTruthy f.localPath
      then some f.localPath else none,
    presentation_id := if jTruthy createdPres then some createdPres else none }

/-- `sec.get(...)` access on a section: the field list of an object (the
loop is reached only when every section is an object, see `orchestrate`). -/
def secFields : Json → List (String × Json)
  | Json.obj fs => fs
  | _ => []

/-- Loop-carried state of the per-section loop, plus the trace of issued
`slides.create` calls (in order). -/
structure LoopSt where
  icache : List (String × Json)
  createdPres : Json
  deckUrl : Json
  firstSlide : Json
  calls : List SlideCall

/-- The per-section loop (orchestrator.py lines 115-204).  A failing
`slides.create` call raises out of `orchestrate`. -/
def orchLoop (env : OrchEnv) (useCache : Bool) (req_id : String)
    (imagen_size : String) : Nat → List Json → LoopSt → Except String LoopSt
  | _, [], st => Except.ok st
  | idx, sec :: rest, st =>
    let secf := secFields sec
    let per_slide_id := req_id ++ "#s" ++ toString idx
    let phase := imagePhase env useCache per_slide_id (jGet secf "image_prompt")
      st.icache imagen_size
    let callRec := buildSlideCall per_slide_id secf phase.1 st.createdPres
    match env.slidesCreate per_slide_id callRec with
    | Except.error e => Except.error e
    | Except.ok res =>
      let st1 :=
        if idx = 1 then
          { icache := phase.2,
            createdPres := jPyOr (jGet res "presentation_id") st.createdPres,
            deckUrl := jPyOr (jGet res "url") st.deckUrl,
            firstSlide := jPyOr (jGet res "slide_id") st.firstSlide,
            calls := st.calls ++ [callRec] }
        else { st with icache := phase.2, calls := st.calls ++ [callRec] }
      orchLoop env useCache req_id imagen_size (idx + 1) rest st1

/-- The aggregate result of `orchestrate` (lines 211-216), extended with the
trace of `slides.create` calls issued during the run. -/
structure OrchOut where
  presentation_id : Json
  url : Json
  created_slides : Int
  first_slide_id : Json
  calls : List SlideCall

/-- `orchestrate` (orchestrator.py lines 17-216) from the summarizer payload
`s` on.  The debug log at lines 87-90 evaluates `sec.get(...)` on every
section, so a non-object section raises before any slide is built. -/
def orchestrate (env : OrchEnv) (s : List (String × Json)) (req_id : String)
    (slide_count : Int) (useCache : Bool) (icache0 : List (String × Json))
    (imagen_size : String) : Except String OrchOut :=
  let sections := sectionsOf s
  if sections.any (fun sec => !jIsObj sec) then Except.error "AttributeError"
  else
    let desired := max 1 (min 10 slide_count)
    let actual := min desired (sections.length : Int)
    if actual = 0 then
      Except.ok { presentation_id := Json.null, url := Json.null,
                  created_slides := 0, first_slide_id := Json.null, calls := [] }
    else
      match orchLoop env useCache req_id imagen_size 1
          (sections.take actual.toNat)
          { icache := icache0, createdPres := Json.null, deckUrl := Json.null,
            firstSlide := Json.null, calls := [] } with
      | Except.error e => Except.error e
      | Except.ok st =>
        Except.ok { presentation_id := st.createdPres, url := st.deckUrl,
                    created_slides := actual, first_slide_id := st.firstSlide,
                    calls := st.calls }

/-! ## Lemmas about the keyword scanner -/

/-- A character of a rendered integer: a decimal digit or the minus sign. -/
def isNumChar (c : Char) : Bool := c.isDigit || c = '-'

theorem toLower_eq_self_of_isDigit (c : Char) (h : c.isDigit = true) :
    c.toLower = c := by
  simp only [Char.isDigit, Bool.and_eq_true, decide_eq_true_eq] at h
  obtain ⟨h1, h2⟩ := h
  unfold Char.toLower
  rw [if_neg]
  intro hr
  obtain ⟨ha, _⟩ := hr
  have hb : c.val.toNat ≤ 57 :=
    @UInt32.toNat_le_of_le c.val 57 (by norm_num [UInt32.size]) h2
  simp [Char.toNat] at ha
  omega

theorem toLower_eq_self_of_numChar (c : Char) (h : isNumChar c = true) :
    c.toLower = c := by
  rcases Bool.or_eq_true_iff.mp h with h | h
  · exact toLower_eq_self_of_isDigit c h
  · have : c = '-' := by simpa using h
    subst this; decide

theorem not_alpha_of_numChar (c : Char) (h : isNumChar c = true) :
    c.isAlpha = false := by
  rcases Bool.or_eq_true_iff.mp h with h | h
  · simp only [Char.isDigit, Bool.and_eq_true, decide_eq_true_eq] at h
    obtain ⟨h1, h2⟩ := h
    have hle : c.val.toNat ≤ 57 := UInt32.toNat_le_of_le (by norm_num [UInt32.size]) h2
    simp only [Char.isAlpha, Char.isUpper, Char.isLower, Bool.or_eq_false_iff,
      Bool.and_eq_false_iff]
    constructor
    · left; simp only [decide_eq_false_iff_not]; intro hc
      have hb := @UInt32.le_toNat_of_le c.val 65 (by norm_num [UInt32.size]) hc
      omega
    · left; simp only [decide_eq_false_iff_not]; intro hc
      have hb := @UInt32.le_toNat_of_le c.val 97 (by norm_num [UInt32.size]) hc
      omega
  · have : c = '-' := by simpa using h
    subst this; decide

theorem toLower_ne_alpha {c k : Char} (hc : isNumChar c = true)
    (hk : k.isAlpha = true) : c.toLower ≠ k := by
  rw [toLower_eq_self_of_numChar c hc]
  intro he
  rw [he] at hc
  rw [not_alpha_of_numChar k hc] at hk
  exact Bool.false_ne_true hk

theorem kwPrefixCI_append_of_some (m : List Char) :
    ∀ {kw l r : List Char}, kwPrefixCI kw l = some r →
      kwPrefixCI kw (l ++ m) = some (r ++ m) := by
  intro kw
  induction kw with
  | nil =>
    intro l r h
    simp only [kwPrefixCI, Option.some.injEq] at h
    subst h
    simp [kwPrefixCI]
  | cons k ks ih =>
    intro l r h
    cases l with
    | nil => simp [kwPrefixCI] at h
    | cons c cs =>
      simp only [kwPrefixCI] at h
      split at h
      · rename_i hck
        show kwPrefixCI (k :: ks) (c :: (cs ++ m)) = some (r ++ m)
        simp only [kwPrefixCI, if_pos hck]
        exact ih h
      · exact absurd h (by simp)

theorem kwPrefixCI_append_of_none {m : List Char}
    (hm : ∀ c ∈ m, isNumChar c = true) :
    ∀ {kw l : List Char}, (∀ k ∈ kw, k.isAlpha = true) → kw ≠ [] →
      kwPrefixCI kw l = none → kwPrefixCI kw (l ++ m) = none := by
  intro kw
  induction kw with
  | nil => intro l _ h0 _; exact absurd rfl h0
  | cons k ks ih =>
    intro l hkw _ h
    cases l with
    | nil =>
      cases m with
      | nil => simp [kwPrefixCI]
      | cons c cs =>
        simp only [List.nil_append, kwPrefixCI]
        rw [if_neg]
        exact toLower_ne_alpha (hm c (by simp)) (hkw k (by simp))
    | cons c cs =>
      simp only [kwPrefixCI] at h
      show kwPrefixCI (k :: ks) (c :: (cs ++ m)) = none
      simp only [kwPrefixCI]
      split
      · rename_i hck
        rw [if_pos hck] at h
        cases ks with
        | nil => simp [kwPrefixCI] at h
        | cons k2 ks2 =>
          exact ih (fun x hx => hkw x (List.mem_cons_of_mem _ hx)) (by simp) h
      · rfl

theorem kwAt_append_of_false {kw l : List Char} (m : List Char)
    (hkw : ∀ k ∈ kw, k.isAlpha = true) (hkw0 : kw ≠ [])
    (hm : ∀ c ∈ m, isNumChar c = true)
    (h : kwAt kw l = false) : kwAt kw (l ++ m) = false := by
  unfold kwAt at h ⊢
  cases hp : kwPrefixCI kw l with
  | none => rw [kwPrefixCI_append_of_none hm hkw hkw0 hp]
  | some r =>
    rw [hp] at h
    rw [kwPrefixCI_append_of_some m hp]
    cases r with
    | nil => simp [wordBoundOk] at h
    | cons a rs => simpa [wordBoundOk] using h

theorem kwAt_head_numChar {kw : List Char} {c : Char} {cs : List Char}
    (hkw : ∀ k ∈ kw, k.isAlpha = true) (hkw0 : kw ≠ [])
    (hc : isNumChar c = true) : kwAt kw (c :: cs) = false := by
  cases kw with
  | nil => exact absurd rfl hkw0
  | cons k ks =>
    unfold kwAt
    simp only [kwPrefixCI]
    rw [if_neg (toLower_ne_alpha hc (hkw k (by simp)))]

theorem scanKw_numChars (kws : List (List Char))
    (hkws : ∀ kw ∈ kws, kw ≠ [] ∧ ∀ k ∈ kw, k.isAlpha = true) :
    ∀ l, (∀ c ∈ l, isNumChar c = true) → ∀ b, scanKw kws b l = false := by
  intro l
  induction l with
  | nil => intro _ b; simp [scanKw]
  | cons c cs ih =>
    intro hl b
    simp only [scanKw, Bool.or_eq_false_iff, Bool.and_eq_false_iff]
    refine ⟨Or.inr ?_, ih (fun x hx => hl x (List.mem_cons_of_mem _ hx)) _⟩
    simp only [List.any_eq_false, Bool.not_eq_true]
    intro kw hkw
    exact kwAt_head_numChar (hkws kw hkw).2 (hkws kw hkw).1 (hl c (by simp))

theorem scanKw_append_numChars (kws : List (List Char))
    (hkws : ∀ kw ∈ kws, kw ≠ [] ∧ ∀ k ∈ kw, k.isAlpha = true)
    (m : List Char) (hm : ∀ c ∈ m, isNumChar c = true) :
    ∀ l b, scanKw kws b l = false → scanKw kws b (l ++ m) = false := by
  intro l
  induction l with
  | nil => intro b _; exact scanKw_numChars kws hkws m hm b
  | cons c cs ih =>
    intro b h
    simp only [scanKw, Bool.or_eq_false_iff, Bool.and_eq_false_iff] at h ⊢
    obtain ⟨h1, h2⟩ := h
    refine ⟨?_, ih _ h2⟩
    rcases h1 with h1 | h1
    · exact Or.inl h1
    · refine Or.inr ?_
      simp only [List.any_eq_false, Bool.not_eq_true] at h1 ⊢
      intro kw hkw
      exact kwAt_append_of_false m (hkws kw hkw).2 (hkws kw hkw).1 hm (h1 kw hkw)

theorem scanKw_append_of_true (kws : List (List Char)) (m : List Char)
    (hm : ∀ b, scanKw kws b m = true) :
    ∀ l b, scanKw kws b (l ++ m) = true := by
  intro l
  induction l with
  | nil => intro b; simpa using hm b
  | cons c cs ih =>
    intro b
    simp only [scanKw, List.append_eq]
    rw [ih]
    simp

theorem guardKws_wf : ∀ kw ∈ guardKws, kw ≠ [] ∧ ∀ k ∈ kw, k.isAlpha = true := by
  decide

theorem digitChar_isDigit (m : Nat) (h : m < 10) :
    (Nat.digitChar m).isDigit = true := by
  interval_cases m <;> decide

theorem toDigitsCore_digits :
    ∀ (f n : Nat) (l : List Char), (∀ c ∈ l, c.isDigit = true) →
      ∀ c ∈ Nat.toDigitsCore 10 f n l, c.isDigit = true := by
  intro f
  induction f with
  | zero => intro n l hl; simpa [Nat.toDigitsCore] using hl
  | succ f ih =>
    intro n l hl c hc
    simp only [Nat.toDigitsCore] at hc
    have hd : (Nat.digitChar (n % 10)).isDigit = true :=
      digitChar_isDigit _ (Nat.mod_lt _ (by norm_num))
    split at hc
    · rcases List.mem_cons.mp hc with h | h
      · subst h; exact hd
      · exact hl c h
    · refine ih _ _ ?_ c hc
      intro x hx
      rcases List.mem_cons.mp hx with h | h
      · subst h; exact hd
      · exact hl x h

theorem intRepr_numChars (n : Int) : ∀ c ∈ (toString n).data, isNumChar c = true := by
  cases n with
  | ofNat m =>
    intro c hc
    have : (toString (Int.ofNat m)).data = Nat.toDigitsCore 10 (m + 1) m [] := rfl
    rw [this] at hc
    have := toDigitsCore_digits (m + 1) m [] (by simp) c hc
    simp [isNumChar, this]
  | negSucc m =>
    intro c hc
    have : (toString (Int.negSucc m)).data
        = '-' :: Nat.toDigitsCore 10 (m + 2) (m + 1) [] := rfl
    rw [this] at hc
    rcases List.mem_cons.mp hc with h | h
    · subst h; decide
    · have := toDigitsCore_digits (m + 2) (m + 1) [] (by simp) c h
      simp [isNumChar, this]

theorem sqlGuard_fallback (n : Int) :
    sqlGuardMatches ("SELECT * FROM t LIMIT " ++ toString n) = false := by
  unfold sqlGuardMatches
  rw [String.data_append]
  exact scanKw_append_numChars guardKws guardKws_wf _ (intRepr_numChars n)
    _ _ (by decide)

theorem sqlGuard_explain (s : String) :
    sqlGuardMatches ("EXPLAIN " ++ s) = sqlGuardMatches s := rfl

theorem hasLimit_fallback (n : Int) :
    hasLimitKw ("SELECT * FROM t LIMIT " ++ toString n) = true := rfl

/-! ## C3, C4, C7: `data.query` SQL handling -/

theorem sanitize_ok_elim {sql s : String} (h : _sanitize_sql sql = Except.ok s) :
    s = sqlStripComments sql ∧ sqlGuardMatches s = false := by
  simp only [_sanitize_sql] at h
  split at h
  · exact absurd h (by simp)
  · rename_i hg
    simp only [Except.ok.injEq] at h
    subst h
    exact ⟨rfl, by simpa using hg⟩

theorem sanitize_error_of_guard {sql : String}
    (h : sqlGuardMatches (sqlStripComments sql) = true) :
    _sanitize_sql sql = Except.error "Only SELECT/WITH queries are allowed." := by
  unfold _sanitize_sql
  rw [if_pos h]

/-- C3: for every input to `data.query`, along every path (pattern-synthesized
SQL, LLM-generated SQL, and the EXPLAIN-failure fallback), every statement
passed to `con.execute` is free of the case-insensitive word-boundary pattern
`(INSERT|UPDATE|DELETE|DROP|ALTER|CREATE|REPLACE|MERGE)` — the executed
statement being the comment-stripped sanitizer output, its `EXPLAIN` probe,
or the clean fallback — and a generated statement on which the guard fires is
rejected before any execution (the tool executes nothing and returns the
degraded payload). -/
theorem data_query_sql_safety (env : DataEnv) (p : DataParams) :
    (∀ s ∈ executedOf (data_query_tool env p), sqlGuardMatches s = false) ∧
    (∀ cols, env.load = Except.ok cols →
      sqlGuardMatches (sqlStripComments
        (_nl2sql env.llm_sql (pyOrStrOpt p.question "") cols)) = true →
      executedOf (data_query_tool env p) = [] ∧
      ∀ o, data_query_tool env p = Except.ok o → o.degraded = true) := by
  constructor
  · intro s hs
    by_cases hvr : pyOrStrOpt p.dataset_id "" = "" ∨ pyOrStrOpt p.question "" = ""
    · simp only [data_query_tool, if_pos hvr, executedOf] at hs
      exact absurd hs (List.not_mem_nil s)
    · cases hload : env.load with
      | error e =>
        simp only [data_query_tool, if_neg hvr, hload, executedOf] at hs
        exact absurd hs (List.not_mem_nil s)
      | ok cols =>
        cases hsan : _sanitize_sql
            (_nl2sql env.llm_sql (pyOrStrOpt p.question "") cols) with
        | error e =>
          simp only [data_query_tool, if_neg hvr, hload, hsan, executedOf] at hs
          exact absurd hs (List.not_mem_nil s)
        | ok sql1 =>
          obtain ⟨hstrip, hguard⟩ := sanitize_ok_elim hsan
          by_cases hexp : env.explain_ok sql1 = true
          · have hexec : executedOf (data_query_tool env p)
                = ["EXPLAIN " ++ sql1, sql1] := by
              simp only [data_query_tool, if_neg hvr, hload, hsan, hexp,
                if_true, executedOf]
              split <;> rfl
            rw [hexec] at hs
            rcases List.mem_cons.mp hs with h | h
            · subst h; rw [sqlGuard_explain]; exact hguard
            · rcases List.mem_cons.mp h with h2 | h2
              · subst h2; exact hguard
              · exact absurd h2 (List.not_mem_nil s)
          · rw [Bool.not_eq_true] at hexp
            have hexec : executedOf (data_query_tool env p)
                = ["EXPLAIN " ++ sql1,
                   "SELECT * FROM t LIMIT " ++ toString (min 50 (effLimitRows p))] := by
              simp only [data_query_tool, if_neg hvr, hload, hsan, hexp,
                Bool.false_eq_true, executedOf]
              split <;> simp
            rw [hexec] at hs
            rcases List.mem_cons.mp hs with h | h
            · subst h; rw [sqlGuard_explain]; exact hguard
            · rcases List.mem_cons.mp h with h2 | h2
              · subst h2; exact sqlGuard_fallback _
              · exact absurd h2 (List.not_mem_nil s)
  · intro cols hload hg
    by_cases hvr : pyOrStrOpt p.dataset_id "" = "" ∨ pyOrStrOpt p.question "" = ""
    · constructor
      · simp [data_query_tool, if_pos hvr, executedOf]
      · intro o ho
        simp only [data_query_tool, if_pos hvr] at ho
        exact absurd ho (by simp)
    · constructor
      · simp only [data_query_tool, if_neg hvr, hload,
          sanitize_error_of_guard hg, executedOf]
      · intro o ho
        simp only [data_query_tool, if_neg hvr, hload,
          sanitize_error_of_guard hg, Except.ok.injEq] at ho
        subst ho
        rfl

theorem pdHead_length_le (n : Int) (hn : 0 ≤ n) (rows : List (List String)) :
    ((pdHead n rows).length : Int) ≤ n := by
  unfold pdHead
  rw [if_pos hn]
  have h2 : (List.take n.toNat rows).length ≤ n.toNat := by
    simp [List.length_take]
  have h3 : (n.toNat : Int) = n := Int.toNat_of_nonneg hn
  omega

/-- The `data.query` oracle of the C4 counterexample: no LLM, a one-column
numeric sheet, EXPLAIN accepts, execution returns no rows. -/
def dataEnvNoLimit : DataEnv :=
  { llm_sql := none,
    load := Except.ok [{ name := "sales", dtype := "double" }],
    explain_ok := fun _ => true,
    run_sql := fun _ => Except.ok [] }

def dataParamsTotalSales : DataParams :=
  { dataset_id := some "ds_1", question := some "total sales",
    sheet := none, limit_rows := none }

/-- C4 counterexample: the question `"total sales"` takes the sum-pattern
path, whose builder emits `SELECT SUM(sales) as total_sales FROM t` — a
statement with no `LIMIT` clause — and that statement reaches execution
unchanged.  This refutes "the executed SQL string contains a LIMIT clause". -/
theorem data_query_executes_without_limit :
    data_query_tool dataEnvNoLimit dataParamsTotalSales = Except.ok
      { executed := ["EXPLAIN SELECT SUM(sales) as total_sales FROM t",
                     "SELECT SUM(sales) as total_sales FROM t"],
        result_sql := "SELECT SUM(sales) as total_sales FROM t",
        result_rows := some [], degraded := false } ∧
    hasLimitKw "SELECT SUM(sales) as total_sales FROM t" = false := by
  exact ⟨rfl, by decide⟩

/-- C4 (amended): for every `data.query` invocation that reaches execution,
the row count of the returned result is at most `limit_rows` (for a positive
`limit_rows`, or the 100000 default when absent), and the EXPLAIN-failure
fallback statement always contains a LIMIT clause — but the executed SQL as
such need not contain one (the sum/avg pattern paths emit aggregate queries
without LIMIT, see the counterexample). -/
theorem data_query_row_bound (env : DataEnv) (p : DataParams) (o : DataOutcome)
    (hpos : ∀ n ∈ p.limit_rows, 1 ≤ n)
    (hok : data_query_tool env p = Except.ok o) :
    (∀ rows, o.result_rows = some rows → (rows.length : Int) ≤ effLimitRows p) ∧
    (∀ n : Int, hasLimitKw ("SELECT * FROM t LIMIT " ++ toString n) = true) := by
  have hlim : 1 ≤ effLimitRows p := by
    unfold effLimitRows
    cases hl : p.limit_rows with
    | none => norm_num
    | some n =>
      have h1 := hpos n (by simp [hl])
      have hne : ¬ n = 0 := by omega
      simp only [hne, if_false]
      omega
  refine ⟨?_, fun n => hasLimit_fallback n⟩
  intro rows hrows
  by_cases hvr : pyOrStrOpt p.dataset_id "" = "" ∨ pyOrStrOpt p.question "" = ""
  · simp only [data_query_tool, if_pos hvr] at hok
    exact absurd hok (by simp)
  · cases hload : env.load with
    | error e =>
      simp only [data_query_tool, if_neg hvr, hload, Except.ok.injEq] at hok
      subst hok
      simp at hrows
    | ok cols =>
      cases hsan : _sanitize_sql
          (_nl2sql env.llm_sql (pyOrStrOpt p.question "") cols) with
      | error e =>
        simp only [data_query_tool, if_neg hvr, hload, hsan,
          Except.ok.injEq] at hok
        subst hok
        simp at hrows
      | ok sql1 =>
        simp only [data_query_tool, if_neg hvr, hload, hsan,
          Except.ok.injEq] at hok
        split at hok
        · subst hok
          simp at hrows
        · rename_i rows0 heq
          subst hok
          simp only [DataOutcome.mk.injEq] at hrows
          simp only [Option.some.injEq] at hrows
          subst hrows
          split
          · rename_i hgt
            exact pdHead_length_le _ (by omega) rows0
          · rename_i hgt
            omega

theorem data_query_sql_safety_witness :
    sqlGuardMatches "SELECT SUM(sales) as total_sales FROM t" = false :=
  (data_query_sql_safety dataEnvNoLimit dataParamsTotalSales).1
    "SELECT SUM(sales) as total_sales FROM t" (by decide)

theorem data_query_row_bound_witness :
    ∃ o, data_query_tool dataEnvNoLimit dataParamsTotalSales = Except.ok o ∧
      (∀ rows, o.result_rows = some rows →
        (rows.length : Int) ≤ effLimitRows dataParamsTotalSales) :=
  ⟨_, rfl, (data_query_row_bound dataEnvNoLimit dataParamsTotalSales _
    (by simp [dataParamsTotalSales]) rfl).1⟩

/-- The `data.query` oracle of the C7 counterexample: the LLM answers a
non-pattern question with `DROP TABLE t`. -/
def dataEnvDrop : DataEnv :=
  { llm_sql := some "DROP TABLE t",
    load := Except.ok [{ name := "a", dtype := "int64" }],
    explain_ok := fun _ => true,
    run_sql := fun _ => Except.ok [] }

def dataParamsDrop : DataParams :=
  { dataset_id := some "ds_1", question := some "zap everything",
    sheet := none, limit_rows := none }

/-- C7 counterexample: when the generated SQL (`DROP TABLE t LIMIT 5000`
after the LLM post-processing) trips the keyword guard, the `ValueError` from
`_sanitize_sql` is caught by the OUTER handler of `data_query_tool`: the tool
executes nothing and returns the degraded payload whose `sql` field is
`-- Failed: <question>` — not the `SELECT * FROM t LIMIT 50` fallback the
claim expects (that fallback is reached only from an EXPLAIN failure). -/
theorem data_query_guard_no_fallback :
    data_query_tool dataEnvDrop dataParamsDrop = Except.ok
      { executed := [], result_sql := "-- Failed: zap everything",
        result_rows := none, degraded := true } ∧
    "-- Failed: zap everything" ≠ "SELECT * FROM t LIMIT 50" :=
  ⟨rfl, by decide⟩

/-- C7 (amended): a statement on which the keyword guard fires is rejected
before any execution and the tool returns the degraded result with
`sql = "-- Failed: <question>"`; the `SELECT * FROM t LIMIT min(50,
limit_rows)` fallback is executed exactly when an already-sanitized statement
fails EXPLAIN validation. -/
theorem data_query_guard_rejects_no_fallback
    (env : DataEnv) (p : DataParams) (cols : List Col)
    (hload : env.load = Except.ok cols)
    (hds : pyOrStrOpt p.dataset_id "" ≠ "")
    (hq : pyOrStrOpt p.question "" ≠ "") :
    (sqlGuardMatches (sqlStripComments
        (_nl2sql env.llm_sql (pyOrStrOpt p.question "") cols)) = true →
      data_query_tool env p = Except.ok
        { executed := [], result_sql := "-- Failed: " ++ pyOrStrOpt p.question "",
          result_rows := none, degraded := true }) ∧
    (∀ sql1, _sanitize_sql (_nl2sql env.llm_sql (pyOrStrOpt p.question "") cols)
        = Except.ok sql1 →
      env.explain_ok sql1 = false →
      executedOf (data_query_tool env p) =
        ["EXPLAIN " ++ sql1,
         "SELECT * FROM t LIMIT " ++ toString (min 50 (effLimitRows p))]) := by
  have hvr : ¬ (pyOrStrOpt p.dataset_id "" = "" ∨ pyOrStrOpt p.question "" = "") := by
    intro h; rcases h with h | h
    · exact hds h
    · exact hq h
  constructor
  · intro hg
    simp only [data_query_tool, if_neg hvr, hload, sanitize_error_of_guard hg]
  · intro sql1 hsan hexp
    simp only [data_query_tool, if_neg hvr, hload, hsan, hexp,
      Bool.false_eq_true, executedOf]
    split <;> simp

/-- The oracle for the amended-C7 witness: a sheet whose column is literally
named `drop`, so the sum-pattern path builds `SELECT SUM(drop) ...`, on which
the guard fires. -/
def dataEnvDropCol : DataEnv :=
  { llm_sql := none,
    load := Except.ok [{ name := "drop", dtype := "int64" }],
    explain_ok := fun _ => true,
    run_sql := fun _ => Except.ok [] }

def dataParamsTotalDrop : DataParams :=
  { dataset_id := some "ds_1", question := some "total drop",
    sheet := none, limit_rows := none }

theorem data_query_guard_rejects_witness :
    data_query_tool dataEnvDropCol dataParamsTotalDrop = Except.ok
      { executed := [], result_sql := "-- Failed: total drop",
        result_rows := none, degraded := true } :=
  (data_query_guard_rejects_no_fallback dataEnvDropCol dataParamsTotalDrop _
    rfl (by decide) (by decide)).1 (by decide)

/-! ## C8: summarizer JSON shape normalization -/

/-- C8 counterexample: a two-element array whose first element is an object
is ACCEPTED by `_coerce_to_object` (the code checks only that the list is
non-empty and its first element is a dict; there is no length-1 check), so
"every other parsed value, including arrays of length two or more, is
rejected with an error" is false. -/
theorem coerce_accepts_two_element_array :
    _coerce_to_object (Json.arr [Json.obj [], Json.obj [("k", Json.num 1)]])
      = Except.ok (Json.obj []) := rfl

/-- C8 (amended): `_coerce_to_object` accepts a JSON object (returned
unchanged) and any NON-EMPTY array whose first element is an object
(unwrapped to that first element, regardless of the array's length); empty
arrays, arrays whose first element is not an object, and all other values
are rejected with an error. -/
theorem coerce_characterization (d : Json) :
    (∀ fields, d = Json.obj fields → _coerce_to_object d = Except.ok d) ∧
    (∀ x xs, d = Json.arr (x :: xs) →
      (jIsObj x = true → _coerce_to_object d = Except.ok x) ∧
      (jIsObj x = false → ∃ e, _coerce_to_object d = Except.error e)) ∧
    (d = Json.arr [] → ∃ e, _coerce_to_object d = Except.error e) ∧
    (jIsObj d = false → (∀ xs, d ≠ Json.arr xs) →
      ∃ e, _coerce_to_object d = Except.error e) := by
  refine ⟨?_, ?_, ?_, ?_⟩
  · intro fields h; subst h; rfl
  · intro x xs h; subst h
    constructor
    · intro hx
      cases x with
      | obj fields => rfl
      | null => simp [jIsObj] at hx
      | bool b => simp [jIsObj] at hx
      | num n => simp [jIsObj] at hx
      | str s => simp [jIsObj] at hx
      | arr items => simp [jIsObj] at hx
    · intro hx
      cases x with
      | obj fields => simp [jIsObj] at hx
      | null => exact ⟨_, rfl⟩
      | bool b => exact ⟨_, rfl⟩
      | num n => exact ⟨_, rfl⟩
      | str s => exact ⟨_, rfl⟩
      | arr items => exact ⟨_, rfl⟩
  · intro h; subst h; exact ⟨_, rfl⟩
  · intro h1 h2
    cases d with
    | obj fields => simp [jIsObj] at h1
    | arr xs => exact absurd rfl (h2 xs)
    | null => exact ⟨_, rfl⟩
    | bool b => exact ⟨_, rfl⟩
    | num n => exact ⟨_, rfl⟩
    | str s => exact ⟨_, rfl⟩

theorem coerce_characterization_witness :
    _coerce_to_object (Json.obj [("title", Json.str "T")])
      = Except.ok (Json.obj [("title", Json.str "T")]) :=
  (coerce_characterization (Json.obj [("title", Json.str "T")])).1 _ rfl

/-! ## C10 and C6: the stdio dispatcher -/

/-- C10: a line that is valid JSON but not a JSON object (e.g. `42`) makes
`req.get("id")` raise `AttributeError`, which the per-line error handling
(which covers only `json.JSONDecodeError`) does not catch: no response is
emitted for that line, no subsequent line is processed, and `serve_stdio`
returns 1 (second conjunct: a concrete run where a valid request follows the
offending line and still gets no response). -/
theorem serve_stdio_nonobject_crash :
    (∀ (tools : List (String × ToolFn)) (rest : List InLine),
      serve_stdio tools (InLine.parsed (Json.num 42) :: rest) = ([], 1)) ∧
    serve_stdio [] [InLine.parsed (Json.num 42),
      InLine.parsed (Json.obj [("id", Json.num 1),
        ("method", Json.str "llm.summarize")])] = ([], 1) :=
  ⟨fun _ _ => rfl, rfl⟩

/-- With a string `method` the membership test cannot raise: the handler
always returns an envelope (the registry keys are strings). -/
theorem handle_request_str_ok (tools : List (String × ToolFn))
    (req : List (String × Json)) (m : String)
    (hm : jGet req "method" = Json.str m) :
    _handle_request tools req = Except.ok (handleResp tools req) := by
  have hex : ∃ r, _handle_request tools req = Except.ok r := by
    simp only [_handle_request, hm]
    by_cases hb : (!jTruthy (Json.str m)) = true
    · rw [if_pos hb]; exact ⟨_, rfl⟩
    · rw [if_neg hb]
      cases hlk : tools.lookup m with
      | none => exact ⟨_, rfl⟩
      | some f =>
        cases hf : f (jPyOr (jGet req "params") (Json.obj [])) with
        | ok result =>
          exact ⟨rpcSuccess (jGet req "id") result, by simp [hf]⟩
        | error msg =>
          exact ⟨rpcError (jGet req "id") (-32000) msg, by simp [hf]⟩
  obtain ⟨r, hr⟩ := hex
  unfold handleResp
  rw [hr]

/-- C6: for a finite sequence of lines each holding a parsed JSON-RPC request
object (a JSON object whose `method` field is a string, as JSON-RPC 2.0
requires of a valid request), the dispatcher emits exactly one response per
request in input order and exits 0 (first conjunct, stated as the response
list being the map of the per-request envelopes); each request's handler
returns normally and its response echoes the request's `id` verbatim
(including null/missing) and carries `result` xor `error` (second conjunct);
an invalid-JSON line yields a `-32700` response with `id = null` and
processing of the remaining lines continues (third conjunct); an unknown or
empty method yields `-32601` (fourth conjunct). -/
theorem serve_stdio_framing (tools : List (String × ToolFn))
    (reqs : List (List (String × Json)))
    (hvalid : ∀ req ∈ reqs, ∃ m, jGet req "method" = Json.str m) :
    serve_stdio tools (reqs.map (fun r => InLine.parsed (Json.obj r)))
      = (reqs.map (fun r => handleResp tools r), 0) ∧
    (∀ req ∈ reqs,
      _handle_request tools req = Except.ok (handleResp tools req) ∧
      respId (handleResp tools req) = jGet req "id" ∧
      respHas (handleResp tools req) "result"
        = !respHas (handleResp tools req) "error") ∧
    (∀ (raw : String) (rest : List InLine),
      serve_stdio tools (InLine.malformed raw :: rest)
        = (rpcError Json.null (-32700) "Invalid JSON"
            :: (serve_stdio tools rest).1, (serve_stdio tools rest).2)) ∧
    (∀ req ∈ reqs, ∀ m, jGet req "method" = Json.str m →
      m = "" ∨ tools.lookup m = none →
      respErrCode (handleResp tools req) = some (-32601)) := by
  refine ⟨?_, ?_, ?_, ?_⟩
  · revert hvalid
    induction reqs with
    | nil => intro _; rfl
    | cons r rest ih =>
      intro hv
      obtain ⟨m, hm⟩ := hv r (List.mem_cons_self r rest)
      have hok := handle_request_str_ok tools r m hm
      have ihh := ih (fun req hreq => hv req (List.mem_cons_of_mem r hreq))
      simp [serve_stdio, hok, ihh]
  · intro req hreq
    obtain ⟨m, hm⟩ := hvalid req hreq
    refine ⟨handle_request_str_ok tools req m hm, ?_⟩
    simp only [handleResp, _handle_request, hm]
    by_cases hb : (!jTruthy (Json.str m)) = true
    · rw [if_pos hb]
      constructor
      · simp [respId, rpcError, jGet, List.lookup]
      · simp [respHas, rpcError, List.lookup]
    · rw [if_neg hb]
      cases hlk : tools.lookup m with
      | none =>
        constructor
        · simp [respId, rpcError, jGet, List.lookup]
        · simp [respHas, rpcError, List.lookup]
      | some f =>
        cases hf : f (jPyOr (jGet req "params") (Json.obj [])) with
        | ok result =>
          simp only []
          rw [hf]
          constructor
          · simp [respId, rpcSuccess, jGet, List.lookup]
          · simp [respHas, rpcSuccess, List.lookup]
        | error msg =>
          simp only []
          rw [hf]
          constructor
          · simp [respId, rpcError, jGet, List.lookup]
          · simp [respHas, rpcError, List.lookup]
  · intro raw rest; rfl
  · intro req hreq m hm hcase
    simp only [handleResp, _handle_request, hm]
    rcases hcase with h0 | hlk
    · subst h0
      rw [if_pos (by simp [jTruthy])]
      simp [respErrCode, rpcError, List.lookup]
    · by_cases h0 : m = ""
      · subst h0
        rw [if_pos (by simp [jTruthy])]
        simp [respErrCode, rpcError, List.lookup]
      · rw [if_neg (by simp [jTruthy, h0])]
        rw [hlk]
        simp [respErrCode, rpcError, List.lookup]

theorem serve_stdio_framing_witness :
    serve_stdio [] [InLine.parsed (Json.obj [("id", Json.null),
        ("method", Json.str "nope")])]
      = ([handleResp [] [("id", Json.null), ("method", Json.str "nope")]], 0) ∧
    respErrCode (handleResp [] [("id", Json.null),
        ("method", Json.str "nope")]) = some (-32601) :=
  ⟨(serve_stdio_framing [] [[("id", Json.null), ("method", Json.str "nope")]]
      (by intro req hreq; rw [List.mem_singleton] at hreq; subst hreq
          exact ⟨"nope", rfl⟩)).1,
   (serve_stdio_framing [] [[("id", Json.null), ("method", Json.str "nope")]]
      (by intro req hreq; rw [List.mem_singleton] at hreq; subst hreq
          exact ⟨"nope", rfl⟩)).2.2.2
     [("id", Json.null), ("method", Json.str "nope")]
     (List.mem_singleton.mpr rfl) "nope" rfl (Or.inr rfl)⟩

/-! ## C5: bounded slide count -/

theorem orchLoop_ok (env : OrchEnv) (u : Bool) (r isz : String)
    (hsc : ∀ rid c, ∃ res, env.slidesCreate rid c = Except.ok res) :
    ∀ (secs : List Json) (idx : Nat) (st : LoopSt),
      ∃ st2, orchLoop env u r isz idx secs st = Except.ok st2 := by
  intro secs
  induction secs with
  | nil => intro idx st; exact ⟨st, rfl⟩
  | cons sec rest ih =>
    intro idx st
    simp only [orchLoop]
    obtain ⟨res, hres⟩ := hsc (r ++ "#s" ++ toString idx)
      (buildSlideCall (r ++ "#s" ++ toString idx) (secFields sec)
        (imagePhase env u (r ++ "#s" ++ toString idx)
          (jGet (secFields sec) "image_prompt") st.icache isz).1 st.createdPres)
    rw [hres]
    exact ih _ _

/-- C5: for every orchestrate request with `1 ≤ slide_count ≤ 10` in which
all `slides.create` calls succeed, the run succeeds with
`created_slides = min(slide_count, #sections)`; `created_slides` lies in
`[1, 10]` whenever the summarizer's normalized section list is non-empty, and
`created_slides = 0` exactly when that list is empty, in which case
`presentation_id`, `url` and `first_slide_id` are all null. -/
theorem orchestrate_bounded_slides (env : OrchEnv) (s : List (String × Json))
    (req_id : String) (N : Int) (useCache : Bool)
    (icache0 : List (String × Json)) (imagen_size : String)
    (hN1 : 1 ≤ N) (hN10 : N ≤ 10)
    (hsec : ∀ sec ∈ sectionsOf s, jIsObj sec = true)
    (hsc : ∀ rid c, ∃ res, env.slidesCreate rid c = Except.ok res) :
    ∃ out, orchestrate env s req_id N useCache icache0 imagen_size
        = Except.ok out ∧
      out.created_slides = min N ((sectionsOf s).length : Int) ∧
      (out.created_slides = 0 ↔ sectionsOf s = []) ∧
      (sectionsOf s ≠ [] →
        1 ≤ out.created_slides ∧ out.created_slides ≤ 10) ∧
      (out.created_slides = 0 →
        out.presentation_id = Json.null ∧ out.url = Json.null ∧
          out.first_slide_id = Json.null) := by
  have hany : (sectionsOf s).any (fun sec => !jIsObj sec) = false := by
    simp only [List.any_eq_false, Bool.not_eq_true]
    intro sec hmem
    simp [hsec sec hmem]
  have hdes : max 1 (min 10 N) = N := by omega
  cases hsecs : sectionsOf s with
  | nil =>
    have hact : min (max 1 (min 10 N)) ((sectionsOf s).length : Int) = 0 := by
      rw [hsecs]; simp; try omega
    refine ⟨{ presentation_id := Json.null, url := Json.null,
              created_slides := 0, first_slide_id := Json.null, calls := [] },
            ?_, ?_, ?_, ?_, ?_⟩
    · unfold orchestrate
      simp only [hany, Bool.false_eq_true, if_false]
      rw [if_pos hact]
    · simp only []
      rw [hsecs] at hact
      simp at hact ⊢
      omega
    · simp
    · intro h; exact absurd rfl h
    · intro _; exact ⟨rfl, rfl, rfl⟩
  | cons sec0 rest =>
    have hlen : (1 : Int) ≤ ((sectionsOf s).length : Int) := by
      rw [hsecs]; simp; try omega
    have hactpos : 1 ≤ min (max 1 (min 10 N)) ((sectionsOf s).length : Int) := by
      omega
    obtain ⟨st2, hst2⟩ := orchLoop_ok env useCache req_id imagen_size hsc
      ((sectionsOf s).take (min (max 1 (min 10 N))
        ((sectionsOf s).length : Int)).toNat) 1
      { icache := icache0, createdPres := Json.null, deckUrl := Json.null,
        firstSlide := Json.null, calls := [] }
    refine ⟨{ presentation_id := st2.createdPres, url := st2.deckUrl,
              created_slides := min (max 1 (min 10 N))
                ((sectionsOf s).length : Int),
              first_slide_id := st2.firstSlide, calls := st2.calls },
            ?_, ?_, ?_, ?_, ?_⟩
    · unfold orchestrate
      simp only [hany, Bool.false_eq_true, if_false]
      rw [if_neg (by omega : ¬ min (max 1 (min 10 N))
        ((sectionsOf s).length : Int) = 0)]
      rw [hst2]
    · simp only []
      rw [hsecs, hdes]
    · constructor
      · intro h
        simp only [] at h
        omega
      · intro h; exact absurd h (by simp)
    · intro _
      simp only []
      constructor <;> omega
    · intro h
      simp only [] at h
      omega

def envAllOk : OrchEnv :=
  { imageGen := fun _ _ => Except.error "ToolError: image backend down",
    slidesCreate := fun _ _ => Except.ok
      [("presentation_id", Json.str "p1"),
       ("url", Json.str "https://docs.google.com/presentation/d/p1/edit"),
       ("slide_id", Json.str "s1")],
    ikey := fun _ => "k" }

def summaryOneSection : List (String × Json) :=
  [("sections", Json.arr [Json.obj
    [("title", Json.str "T"), ("bullets", Json.arr [Json.str "b1"]),
     ("script", Json.str "sc")]])]

theorem orchestrate_bounded_slides_witness :
    ∃ out, orchestrate envAllOk summaryOneSection "req-1" 1 false [] "1280x720"
        = Except.ok out ∧
      out.created_slides = min 1 ((sectionsOf summaryOneSection).length : Int) ∧
      (out.created_slides = 0 ↔ sectionsOf summaryOneSection = []) ∧
      (sectionsOf summaryOneSection ≠ [] →
        1 ≤ out.created_slides ∧ out.created_slides ≤ 10) ∧
      (out.created_slides = 0 →
        out.presentation_id = Json.null ∧ out.url = Json.null ∧
          out.first_slide_id = Json.null) :=
  orchestrate_bounded_slides envAllOk summaryOneSection "req-1" 1 false []
    "1280x720" (by norm_num) (by norm_num) (by decide) (fun _ _ => ⟨_, rfl⟩)

/-! ## C9: image failure is swallowed -/

/-- The image fields the cache-disabled loop body derives for one section:
no prompt or a failing call leaves all three `None`. -/
def expFields (env : OrchEnv) (pid : String) (ip : Json) (isz : String) :
    ImgFields :=
  if !jTruthy ip then noImgFields
  else match env.imageGen pid (imagenParams ip isz) with
    | Except.ok g =>
      { image_url := jPyOr (jGet g "image_url") (jGet g "url"),
        drive := jGet g "drive_file_id", localPath := jGet g "local_path" }
    | Except.error _ => noImgFields

theorem imagePhase_nocache (env : OrchEnv) (pid : String) (ip : Json)
    (icache : List (String × Json)) (isz : String) :
    imagePhase env false pid ip icache isz
      = (expFields env pid ip isz, icache) := by
  cases hip : jTruthy ip with
  | false => simp [imagePhase, expFields, hip]
  | true =>
    simp only [imagePhase, expFields, hip, Bool.not_true, Bool.false_eq_true,
      if_false]
    cases env.imageGen pid (imagenParams ip isz) <;> rfl

/-- The `slide_params` record the cache-disabled loop issues for the section
at (1-based) index `idx`, given the deck id accumulated so far. -/
def expCall (env : OrchEnv) (r isz : String) (idx : Nat) (sec : Json)
    (pres : Json) : SlideCall :=
  buildSlideCall (r ++ "#s" ++ toString idx) (secFields sec)
    (expFields env (r ++ "#s" ++ toString idx)
      (jGet (secFields sec) "image_prompt") isz) pres

def expCalls (env : OrchEnv) (r isz : String) (pres : Json) :
    Nat → List Json → List SlideCall
  | _, [] => []
  | idx, sec :: rest =>
    expCall env r isz idx sec pres :: expCalls env r isz pres (idx + 1) rest

theorem expCalls_length (env : OrchEnv) (r isz : String) (pres : Json) :
    ∀ (idx : Nat) (secs : List Json),
      (expCalls env r isz pres idx secs).length = secs.length := by
  intro idx secs
  induction secs generalizing idx with
  | nil => rfl
  | cons sec rest ih => simp [expCalls, ih]

theorem expCalls_get (env : OrchEnv) (r isz : String) (pres : Json) :
    ∀ (secs : List Json) (idx k : Nat),
      (expCalls env r isz pres idx secs).get? k
        = (secs.get? k).map
            (fun sec => expCall env r isz (idx + k) sec pres) := by
  intro secs
  induction secs with
  | nil => intro idx k; simp [expCalls]
  | cons sec rest ih =>
    intro idx k
    cases k with
    | zero => simp [expCalls]
    | succ k2 =>
      simp only [expCalls, List.get?_cons_succ]
      rw [ih (idx + 1) k2]
      have he : idx + 1 + k2 = idx + (k2 + 1) := by omega
      rw [he]

theorem orchLoop_tail (env : OrchEnv) (r isz : String)
    (resFn : String → SlideCall → List (String × Json))
    (hsc : ∀ rid c, env.slidesCreate rid c = Except.ok (resFn rid c)) :
    ∀ (secs : List Json) (idx : Nat), 2 ≤ idx → ∀ (st : LoopSt),
      orchLoop env false r isz idx secs st = Except.ok
        { icache := st.icache, createdPres := st.createdPres,
          deckUrl := st.deckUrl, firstSlide := st.firstSlide,
          calls := st.calls ++ expCalls env r isz st.createdPres idx secs } := by
  intro secs
  induction secs with
  | nil => intro idx h2 st; simp [orchLoop, expCalls]
  | cons sec rest ih =>
    intro idx h2 st
    simp only [orchLoop, imagePhase_nocache, hsc]
    rw [if_neg (by omega : ¬ idx = 1)]
    rw [ih (idx + 1) (by omega)]
    simp [expCalls, expCall]

theorem orchLoop_full (env : OrchEnv) (r isz : String)
    (resFn : String → SlideCall → List (String × Json))
    (hsc : ∀ rid c, env.slidesCreate rid c = Except.ok (resFn rid c))
    (sec0 : Json) (rest : List Json) (st : LoopSt) :
    orchLoop env false r isz 1 (sec0 :: rest) st = Except.ok
      { icache := st.icache,
        createdPres := jPyOr (jGet (resFn (r ++ "#s" ++ toString 1)
            (expCall env r isz 1 sec0 st.createdPres)) "presentation_id")
          st.createdPres,
        deckUrl := jPyOr (jGet (resFn (r ++ "#s" ++ toString 1)
            (expCall env r isz 1 sec0 st.createdPres)) "url") st.deckUrl,
        firstSlide := jPyOr (jGet (resFn (r ++ "#s" ++ toString 1)
            (expCall env r isz 1 sec0 st.createdPres)) "slide_id") st.firstSlide,
        calls := st.calls ++ (expCall env r isz 1 sec0 st.createdPres
          :: expCalls env r isz
            (jPyOr (jGet (resFn (r ++ "#s" ++ toString 1)
              (expCall env r isz 1 sec0 st.createdPres)) "presentation_id")
              st.createdPres) 2 rest) } := by
  simp only [orchLoop, imagePhase_nocache, hsc]
  simp only [if_true]
  rw [orchLoop_tail env r isz resFn hsc rest (1 + 1) (by omega)]
  simp [expCall]

/-- The sections the loop actually visits for a request with
`1 ≤ slide_count ≤ 10`. -/
def takenSecs (s : List (String × Json)) (N : Int) : List Json :=
  (sectionsOf s).take (min N ((sectionsOf s).length : Int)).toNat

/-- The deck id captured after the first slide of a cache-disabled run. -/
def firstPres (env : OrchEnv) (s : List (String × Json)) (req_id : String)
    (N : Int) (isz : String)
    (resFn : String → SlideCall → List (String × Json)) : Json :=
  jPyOr (jGet (resFn (req_id ++ "#s" ++ toString 1)
    (expCall env req_id isz 1 ((takenSecs s N).headD Json.null) Json.null))
    "presentation_id") Json.null

theorem orchestrate_nocache_get (env : OrchEnv) (s : List (String × Json))
    (req_id : String) (N : Int) (icache0 : List (String × Json)) (isz : String)
    (resFn : String → SlideCall → List (String × Json))
    (hN1 : 1 ≤ N) (hN10 : N ≤ 10)
    (hsec : ∀ sec ∈ sectionsOf s, jIsObj sec = true)
    (hsc : ∀ rid c, env.slidesCreate rid c = Except.ok (resFn rid c))
    (hne : sectionsOf s ≠ []) :
    ∃ out, orchestrate env s req_id N false icache0 isz = Except.ok out ∧
      out.created_slides = min N ((sectionsOf s).length : Int) ∧
      out.calls.length = (min N ((sectionsOf s).length : Int)).toNat ∧
      (∀ k, out.calls.get? k = ((takenSecs s N).get? k).map
        (fun sec => expCall env req_id isz (k + 1) sec
          (if k = 0 then Json.null
           else firstPres env s req_id N isz resFn))) := by
  have hany : (sectionsOf s).any (fun sec => !jIsObj sec) = false := by
    simp only [List.any_eq_false, Bool.not_eq_true]
    intro sec hmem
    simp [hsec sec hmem]
  have hdes : max 1 (min 10 N) = N := by omega
  have hlen : 1 ≤ (sectionsOf s).length := by
    cases hs0 : sectionsOf s with
    | nil => exact absurd hs0 hne
    | cons a b => simp
  have hTlen : (takenSecs s N).length
      = (min N ((sectionsOf s).length : Int)).toNat := by
    unfold takenSecs
    rw [List.length_take]
    omega
  have hTpos : 1 ≤ (takenSecs s N).length := by
    rw [hTlen]; omega
  cases hT : takenSecs s N with
  | nil => rw [hT] at hTpos; simp at hTpos
  | cons sec0 rest =>
    have hhead : (takenSecs s N).headD Json.null = sec0 := by rw [hT]; rfl
    have hP : firstPres env s req_id N isz resFn
        = jPyOr (jGet (resFn (req_id ++ "#s" ++ toString 1)
            (expCall env req_id isz 1 sec0 Json.null)) "presentation_id")
            Json.null := by
      unfold firstPres
      rw [hhead]
    refine ⟨{ presentation_id :=
                  jPyOr (jGet (resFn (req_id ++ "#s" ++ toString 1)
                    (expCall env req_id isz 1 sec0 Json.null))
                    "presentation_id") Json.null,
              url :=
                  jPyOr (jGet (resFn (req_id ++ "#s" ++ toString 1)
                    (expCall env req_id isz 1 sec0 Json.null)) "url") Json.null,
              created_slides := min N ((sectionsOf s).length : Int),
              first_slide_id :=
                  jPyOr (jGet (resFn (req_id ++ "#s" ++ toString 1)
                    (expCall env req_id isz 1 sec0 Json.null)) "slide_id")
                    Json.null,
              calls :=
                  expCall env req_id isz 1 sec0 Json.null
                    :: expCalls env req_id isz
                        (jPyOr (jGet (resFn (req_id ++ "#s" ++ toString 1)
                          (expCall env req_id isz 1 sec0 Json.null))
                          "presentation_id") Json.null) 2 rest },
            ?_, ?_, ?_, ?_⟩
    · unfold orchestrate
      simp only [hany, Bool.false_eq_true, if_false, hdes]
      rw [if_neg (by omega : ¬ min N ((sectionsOf s).length : Int) = 0)]
      have hTexp : (sectionsOf s).take
          (min N ((sectionsOf s).length : Int)).toNat = sec0 :: rest := hT
      rw [hTexp]
      rw [orchLoop_full env req_id isz resFn hsc sec0 rest _]
      simp
    · rfl
    · simp only [List.length_cons,
        expCalls_length env req_id isz _ 2 rest]
      have h1 : rest.length + 1 = (takenSecs s N).length := by rw [hT]; simp
      omega
    · intro k
      rw [hP]
      cases k with
      | zero =>
        simp [expCalls]
      | succ k2 =>
        simp only [List.get?_cons_succ]
        rw [expCalls_get env req_id isz _ rest 2 k2]
        have he : 2 + k2 = k2 + 1 + 1 := by omega
        rw [he]
        simp

theorem expCall_image_none (env : OrchEnv) (r isz : String) (idx : Nat)
    (sec pres : Json) (emsg : String)
    (hfail : env.imageGen (r ++ "#s" ++ toString idx)
        (imagenParams (jGet (secFields sec) "image_prompt") isz)
      = Except.error emsg) :
    (expCall env r isz idx sec pres).image_url = none ∧
    (expCall env r isz idx sec pres).image_drive_file_id = none ∧
    (expCall env r isz idx sec pres).image_local_path = none := by
  unfold expCall buildSlideCall expFields
  by_cases hip : jTruthy (jGet (secFields sec) "image_prompt") = true
  · simp only [hip, Bool.not_true, Bool.false_eq_true, if_false, hfail]
    simp [noImgFields, jTruthy]
  · rw [Bool.not_eq_true] at hip
    simp only [hip, Bool.not_false, if_true]
    simp [noImgFields, jTruthy]

theorem expCall_image_kept (env : OrchEnv) (r isz : String) (idx : Nat)
    (sec pres : Json) (g : List (String × Json))
    (hok : env.imageGen (r ++ "#s" ++ toString idx)
        (imagenParams (jGet (secFields sec) "image_prompt") isz)
      = Except.ok g)
    (hip : jTruthy (jGet (secFields sec) "image_prompt") = true)
    (hurl : jTruthy (jPyOr (jGet g "image_url") (jGet g "url")) = true) :
    (expCall env r isz idx sec pres).image_url
      = some (jPyOr (jGet g "image_url") (jGet g "url")) := by
  unfold expCall buildSlideCall expFields
  simp only [hip, Bool.not_true, Bool.false_eq_true, if_false, hok]
  simp [hurl]

/-- C9: in a cache-disabled orchestrate run where every `slides.create` call
succeeds but `image.generate` raises a `ToolError` for slide `i`, the run
still succeeds and creates `min(slide_count, #sections)` slides; the
`slides.create` call for slide `i` carries no image field at all, the image
result of any slide whose `image.generate` call succeeded (with a truthy URL)
is kept on that slide's call, and `created_slides` is unaffected by the
failure. -/
theorem orchestrate_image_failure_swallowed
    (env : OrchEnv) (s : List (String × Json)) (req_id : String) (N : Int)
    (icache0 : List (String × Json)) (isz : String)
    (resFn : String → SlideCall → List (String × Json))
    (i : Nat) (emsg : String)
    (hN1 : 1 ≤ N) (hN10 : N ≤ 10)
    (hsec : ∀ sec ∈ sectionsOf s, jIsObj sec = true)
    (hsc : ∀ rid c, env.slidesCreate rid c = Except.ok (resFn rid c))
    (hi1 : 1 ≤ i) (hiN : (i : Int) ≤ min N ((sectionsOf s).length : Int))
    (hfail : env.imageGen (req_id ++ "#s" ++ toString i)
        (imagenParams (jGet (secFields ((takenSecs s N).getD (i - 1) Json.null))
          "image_prompt") isz)
      = Except.error emsg) :
    ∃ out, orchestrate env s req_id N false icache0 isz = Except.ok out ∧
      out.created_slides = min N ((sectionsOf s).length : Int) ∧
      out.calls.length = (min N ((sectionsOf s).length : Int)).toNat ∧
      (∀ ci, out.calls.get? (i - 1) = some ci →
        ci.image_url = none ∧ ci.image_drive_file_id = none ∧
          ci.image_local_path = none) ∧
      (∀ k ck g, out.calls.get? k = some ck →
        env.imageGen (req_id ++ "#s" ++ toString (k + 1))
            (imagenParams (jGet (secFields ((takenSecs s N).getD k Json.null))
              "image_prompt") isz) = Except.ok g →
        jTruthy (jGet (secFields ((takenSecs s N).getD k Json.null))
          "image_prompt") = true →
        jTruthy (jPyOr (jGet g "image_url") (jGet g "url")) = true →
        ck.image_url = some (jPyOr (jGet g "image_url") (jGet g "url"))) := by
  have hne : sectionsOf s ≠ [] := by
    intro h
    rw [h] at hiN
    simp at hiN
    omega
  obtain ⟨out, hrun, hcr, hln, hget⟩ :=
    orchestrate_nocache_get env s req_id N icache0 isz resFn hN1 hN10 hsec hsc hne
  refine ⟨out, hrun, hcr, hln, ?_, ?_⟩
  · intro ci hci
    rw [hget (i - 1)] at hci
    cases hTs : (takenSecs s N).get? (i - 1) with
    | none => rw [hTs] at hci; simp at hci
    | some sec =>
      rw [hTs] at hci
      simp only [Option.map_some', Option.some.injEq] at hci
      have hsecD : (takenSecs s N).getD (i - 1) Json.null = sec := by
        rw [List.getD_eq_get?, hTs]; rfl
      have hidx : i - 1 + 1 = i := by omega
      rw [hsecD] at hfail
      rw [← hci]
      have := expCall_image_none env req_id isz (i - 1 + 1) sec
        (if i - 1 = 0 then Json.null else firstPres env s req_id N isz resFn)
        emsg (by rw [hidx]; exact hfail)
      exact this
  · intro k ck g hck hok hip hurl
    rw [hget k] at hck
    cases hTs : (takenSecs s N).get? k with
    | none => rw [hTs] at hck; simp at hck
    | some sec =>
      rw [hTs] at hck
      simp only [Option.map_some', Option.some.injEq] at hck
      have hsecD : (takenSecs s N).getD k Json.null = sec := by
        rw [List.getD_eq_get?, hTs]; rfl
      rw [hsecD] at hok hip
      rw [← hck]
      exact expCall_image_kept env req_id isz (k + 1) sec
        (if k = 0 then Json.null else firstPres env s req_id N isz resFn)
        g hok hip hurl

def envImgFail : OrchEnv :=
  { imageGen := fun _ _ => Except.error "ToolError: image quota exhausted",
    slidesCreate := fun _ _ => Except.ok
      [("presentation_id", Json.str "p9"), ("url", Json.str "u9"),
       ("slide_id", Json.str "s9")],
    ikey := fun _ => "k" }

def resFnConst : String → SlideCall → List (String × Json) :=
  fun _ _ => [("presentation_id", Json.str "p9"), ("url", Json.str "u9"),
    ("slide_id", Json.str "s9")]

def summaryTwoSections : List (String × Json) :=
  [("sections", Json.arr [
     Json.obj [("title", Json.str "A"), ("image_prompt", Json.str "cat")],
     Json.obj [("title", Json.str "B"), ("image_prompt", Json.str "dog")]])]

theorem orchestrate_image_failure_witness :
    ∃ out, orchestrate envImgFail summaryTwoSections "r9" 2 false [] "1280x720"
        = Except.ok out ∧
      out.created_slides
        = min 2 ((sectionsOf summaryTwoSections).length : Int) ∧
      out.calls.length
        = (min 2 ((sectionsOf summaryTwoSections).length : Int)).toNat ∧
      (∀ ci, out.calls.get? (2 - 1) = some ci →
        ci.image_url = none ∧ ci.image_drive_file_id = none ∧
          ci.image_local_path = none) ∧
      (∀ k ck g, out.calls.get? k = some ck →
        envImgFail.imageGen ("r9" ++ "#s" ++ toString (k + 1))
            (imagenParams (jGet (secFields
              ((takenSecs summaryTwoSections 2).getD k Json.null))
              "image_prompt") "1280x720") = Except.ok g →
        jTruthy (jGet (secFields
          ((takenSecs summaryTwoSections 2).getD k Json.null))
          "image_prompt") = true →
        jTruthy (jPyOr (jGet g "image_url") (jGet g "url")) = true →
        ck.image_url = some (jPyOr (jGet g "image_url") (jGet g "url"))) :=
  orchestrate_image_failure_swallowed envImgFail summaryTwoSections "r9" 2 []
    "1280x720" resFnConst 2 "ToolError: image quota exhausted"
    (by norm_num) (by norm_num) (by decide) (fun _ _ => rfl)
    (by norm_num) (by decide) rfl

/-! ## slides.create: idempotency and `presentation_id` handling -/

/-- Parameters for a concrete first/second call pair with the non-empty
idempotency key "k1". -/
def pC2 : SlidesCreateParams :=
  { client_request_id := some "k1", title := "T", subtitle := none,
    bullets := some ["b"], script := some "s", image_local_path := none,
    image_url := none, image_drive_file_id := none,
    share_image_public := true, aspect := "16:9", presentation_id := none }

/-- The state the first `pC2` call on `mockBackend` leaves behind: one fresh
presentation `p0` with slide `s0`, and the idempotency record for "k1". -/
def st1c2 : SlidesState :=
  { backend := { presCount := 1, presentations := ["p0"],
                 slides := [("p0", "s0")], uploads := [] },
    idem := [("k1", ("p0", "s0",
      "https://docs.google.com/presentation/d/p0/edit"))] }

/-- C2: two `slides.create` calls with the same non-empty
`client_request_id` return the same `presentation_id`, `slide_id` and `url`;
the second sets `reused_existing = true` and performs no side effect at all
(the state it returns is exactly the state it was given, so no presentation
creation, slide insertion or image upload happens); and the idempotency
mapping is recorded only after the slide's side effects succeeded: every
failing call leaves the map unchanged. -/
theorem slides_create_idempotent :
    (∀ (b : GBackend) (p1 p2 : SlidesCreateParams) (st : SlidesState)
        (key : String) (r1 : SlidesCreateResult) (st1 : SlidesState),
      p1.client_request_id = some key → key ≠ "" →
      p2.client_request_id = some key →
      st.idem.lookup key = none →
      slides_create_tool b p1 st = (Except.ok r1, st1) →
      slides_create_tool b p2 st1
        = (Except.ok { presentation_id := r1.presentation_id,
                       slide_id := r1.slide_id, url := r1.url,
                       reused_existing := true }, st1)) ∧
    (∀ (b : GBackend) (p : SlidesCreateParams) (st : SlidesState)
        (e : PyErr) (st2 : SlidesState),
      slides_create_tool b p st = (Except.error e, st2) →
      st2.idem = st.idem) := by
  constructor
  · intro b p1 p2 st key r1 st1 hk1 hkne hk2 hmiss hcall
    simp only [slides_create_tool, hk1, if_neg hkne, hmiss] at hcall
    split at hcall
    · simp at hcall
    · split at hcall
      · simp at hcall
      · split at hcall
        · simp at hcall
        · split at hcall
          · simp at hcall
          · split at hcall
            · simp at hcall
            · split at hcall
              · simp at hcall
              · rw [Prod.mk.injEq] at hcall
                obtain ⟨hr, hst⟩ := hcall
                rw [Except.ok.injEq] at hr
                subst hr
                subst hst
                simp [slides_create_tool, hk2, if_neg hkne, List.lookup]
  · intro b p st e st2 hcall
    cases hpc : p.client_request_id with
    | none =>
        simp only [slides_create_tool, hpc] at hcall
        split at hcall <;> try (split at hcall) <;> try (split at hcall) <;>
          try (split at hcall) <;> try (split at hcall) <;> try (split at hcall)
        all_goals rw [Prod.mk.injEq] at hcall
        all_goals obtain ⟨h1, h2⟩ := hcall
        all_goals first
          | exact Except.noConfusion h1
          | rw [← h2]
    | some key =>
        by_cases hk : key = ""
        · simp only [slides_create_tool, hpc, if_pos hk] at hcall
          split at hcall <;> try (split at hcall) <;> try (split at hcall) <;>
            try (split at hcall) <;> try (split at hcall) <;> try (split at hcall)
          all_goals rw [Prod.mk.injEq] at hcall
          all_goals obtain ⟨h1, h2⟩ := hcall
          all_goals first
            | exact Except.noConfusion h1
            | rw [← h2]
        · cases hlk : st.idem.lookup key with
          | some trip =>
              obtain ⟨pid, sid, u⟩ := trip
              simp only [slides_create_tool, hpc, if_neg hk, hlk] at hcall
              simp at hcall
          | none =>
              simp only [slides_create_tool, hpc, if_neg hk, hlk] at hcall
              split at hcall <;> try (split at hcall) <;> try (split at hcall) <;>
                try (split at hcall) <;> try (split at hcall) <;> try (split at hcall)
              all_goals rw [Prod.mk.injEq] at hcall
              all_goals obtain ⟨h1, h2⟩ := hcall
              all_goals first
                | exact Except.noConfusion h1
                | rw [← h2]

/-- Witness for C2: on the mock backend the first "k1" call creates deck
`p0` with slide `s0`, and the second call returns the same triple with
`reused_existing = true` and leaves the state untouched. -/
theorem slides_create_idempotent_witness :
    slides_create_tool mockBackend pC2 st1c2
      = (Except.ok { presentation_id := "p0", slide_id := "s0",
                     url := "https://docs.google.com/presentation/d/p0/edit",
                     reused_existing := true }, st1c2) :=
  (slides_create_idempotent).1 mockBackend pC2 pC2 emptySlidesState "k1"
    { presentation_id := "p0", slide_id := "s0",
      url := "https://docs.google.com/presentation/d/p0/edit",
      reused_existing := false }
    st1c2 rfl (by decide) rfl rfl rfl

/-- Parameters that supply `presentation_id = "EXISTING"` to `slides.create`. -/
def pC1 : SlidesCreateParams :=
  { client_request_id := none, title := "T", subtitle := none,
    bullets := some [], script := some "", image_local_path := none,
    image_url := none, image_drive_file_id := none,
    share_image_public := true, aspect := "16:9",
    presentation_id := some "EXISTING" }

/-- C1: `slides_create_tool` never reads `presentation_id` — the result is
identical to the result with the field removed — so a call supplying
`presentation_id = "EXISTING"` still creates a brand-new presentation `p0`
and inserts the slide there, instead of appending to the existing deck as
the spec (and the orchestrator's append-mode comment) requires. -/
theorem slides_create_ignores_presentation_id :
    (∀ (b : GBackend) (p : SlidesCreateParams) (st : SlidesState),
      slides_create_tool b p st
        = slides_create_tool b { p with presentation_id := none } st) ∧
    (pC1.presentation_id = some "EXISTING" ∧
      slides_create_tool mockBackend pC1 emptySlidesState
        = (Except.ok { presentation_id := "p0", slide_id := "s0",
                       url := "https://docs.google.com/presentation/d/p0/edit",
                       reused_existing := false },
           { backend := { presCount := 1, presentations := ["p0"],
                          slides := [("p0", "s0")], uploads := [] },
             idem := [] }) ∧
      ("p0" : String) ≠ "EXISTING") := by
  refine ⟨?_, rfl, rfl, by decide⟩
  intro b p st
  cases p
  rfl
